import Mathlib

/-!
Verification development for the resilient multi-provider LLM request router
(`src/utils/llm_router.py`, the V3 router).

The Python source is shallowly embedded below:
* `CircuitBreaker` (source lines 42-146) becomes a pure state machine on
  `CBState` driven by `callStep`; wall-clock instants (`time.time()`, a float)
  are modelled as integers (arbitrary-precision clock ticks: the breaker and
  health-check logic only ever compares elapsed differences of instants
  against the integer-valued timeout parameters).
* `ComplexityAnalyzer` (lines 149-274) becomes the pure function `analyze`.
* `LLMRouter` (lines 277-704) becomes a state-transition function
  `callRouter` over `RouterState`; the two upstream providers are modelled as
  oracles `Nat → Except String String` giving the outcome of each network
  attempt, and the sampled backoff jitter as an oracle `Nat → ℚ` (the jitter
  only feeds the accumulated backoff; instants are integers as above).

Sequential semantics: the source guards its shared state with locks and the
spec's claims under verification here are all single-caller properties, so
each operation is modelled as one atomic state transition.
-/

namespace LLMRouterV3

/-! ## Circuit breaker (source lines 35-146) -/

/-- `CircuitState` enum (source lines 35-39); `opened` models `OPEN`. -/
inductive CircuitState
  | closed
  | opened
  | halfOpen
deriving DecidableEq, Repr

/-- Constructor parameters of `CircuitBreaker.__init__` (lines 52-66). -/
structure CBConfig where
  failure_threshold : Nat
  recovery_timeout : Nat
  half_open_max_calls : Nat
deriving DecidableEq, Repr

/-- Mutable fields of a `CircuitBreaker` instance (lines 68-71). -/
structure CBState where
  state : CircuitState
  failure_count : Nat
  success_count : Nat
  last_failure_time : Option ℤ
deriving DecidableEq, Repr

/-- Fresh breaker state as set up in `__init__` (lines 68-71). -/
def cbInit : CBState := ⟨.closed, 0, 0, none⟩

/-- `CircuitBreaker._should_attempt_reset` (lines 100-106). -/
def shouldAttemptReset (cfg : CBConfig) (s : CBState) (now : ℤ) : Bool :=
  match s.last_failure_time with
  | none => true
  | some t => decide ((cfg.recovery_timeout : ℤ) ≤ now - t)

/-- `CircuitBreaker._on_success` (lines 108-123): an `if/elif` on the state. -/
def onSuccess (cfg : CBConfig) (s : CBState) : CBState :=
  if s.state = .halfOpen then
    if cfg.half_open_max_calls ≤ s.success_count + 1 then
      { s with state := CircuitState.closed, failure_count := 0, success_count := 0 }
    else
      { s with success_count := s.success_count + 1 }
  else if s.state = .closed then
    { s with failure_count := 0 }
  else s

/-- `CircuitBreaker._on_failure` (lines 125-142); `now` is the instant at
which the failure is recorded (`time.time()`): the counter is incremented and
the timestamp recorded first (inlined into each branch below), then the
`if/elif` on the state runs. -/
def onFailure (cfg : CBConfig) (s : CBState) (now : ℤ) : CBState :=
  if s.state = .halfOpen then
    { s with
        state := CircuitState.opened, success_count := 0,
        failure_count := s.failure_count + 1, last_failure_time := some now }
  else if s.state = .closed then
    if cfg.failure_threshold ≤ s.failure_count + 1 then
      { s with
          state := CircuitState.opened,
          failure_count := s.failure_count + 1, last_failure_time := some now }
    else
      { s with failure_count := s.failure_count + 1, last_failure_time := some now }
  else
    { s with failure_count := s.failure_count + 1, last_failure_time := some now }

/-- Outcome of one `CircuitBreaker.call`: the guard rejected the call without
running the wrapped operation, or the operation ran and succeeded / failed. -/
inductive CBResult
  | rejected
  | ranSuccess
  | ranFailure
deriving DecidableEq, Repr

/-- One invocation of `CircuitBreaker.call` seen from outside: the guard is
checked at instant `tg`; if admitted, the wrapped operation's success is
`outcome` and its result is recorded at instant `tout`. -/
structure CBEvent where
  tg : ℤ
  outcome : Bool
  tout : ℤ
deriving DecidableEq, Repr

/-- `CircuitBreaker.call` (lines 74-98) as one state transition: the guard
runs under the lock at instant `e.tg`; if the circuit is OPEN it either
moves to HALF_OPEN (recovery attempt) or raises without running the wrapped
operation; otherwise the operation runs and its outcome is recorded via
`_on_success` / `_on_failure`. -/
def callStep (cfg : CBConfig) (s : CBState) (e : CBEvent) : CBResult × CBState :=
  if s.state = .opened then
    if shouldAttemptReset cfg s e.tg then
      let s1 := { s with state := CircuitState.halfOpen, success_count := 0 }
      if e.outcome then (.ranSuccess, onSuccess cfg s1)
      else (.ranFailure, onFailure cfg s1 e.tout)
    else
      (.rejected, s)
  else
    if e.outcome then (.ranSuccess, onSuccess cfg s)
    else (.ranFailure, onFailure cfg s e.tout)

/-- The state after one `CircuitBreaker.call`. -/
def cbStep (cfg : CBConfig) (s : CBState) (e : CBEvent) : CBState :=
  (callStep cfg s e).2

/-- Breaker state after a sequence of `call` invocations on a fresh breaker. -/
def runCB (cfg : CBConfig) (evs : List CBEvent) : CBState :=
  evs.foldl (cbStep cfg) cbInit

/-- Exact effect of one `CircuitBreaker.call` on a breaker state, phrased as
the claim's transition system.  Every disjunct fixes the successor state `s'`
completely, as an explicit record built from the pre-state `s` and the event
`e` — there are no free intermediate states — so a breaker step outside this
list is impossible.  The cases:
* CLOSED, success: failure counter reset, no state transition;
* CLOSED, failure with the incremented counter still below
  `failure_threshold`: counter bump, no transition;
* the legal CLOSED→OPEN transition: a failure whose incremented counter
  reaches `failure_threshold`, timestamp recorded;
* OPEN, elapsed strictly below `recovery_timeout` since the recorded last
  failure: the call is rejected and the state returned bit-identical;
* OPEN, elapsed at least `recovery_timeout`: the legal OPEN→HALF_OPEN
  transition with `success_count` reset to 0 — the pinned intermediate is
  `{ s with state := halfOpen, success_count := 0 }` — followed in the same
  call by the recorded trial outcome: stay HALF_OPEN on a success still
  below `half_open_max_calls`, the legal HALF_OPEN→CLOSED transition (both
  counters reset to 0) when the single trial success already reaches
  `half_open_max_calls ≤ 1`, or the legal HALF_OPEN→OPEN transition on a
  trial failure;
* HALF_OPEN, success reaching `half_open_max_calls`: the legal
  HALF_OPEN→CLOSED transition with both counters reset to 0;
* HALF_OPEN, success below `half_open_max_calls`: counter bump, no
  transition;
* the legal HALF_OPEN→OPEN transition: any failure while HALF_OPEN. -/
def LegalCall (cfg : CBConfig) (e : CBEvent) (s s' : CBState) : Prop :=
  (s.state = .closed ∧ e.outcome = true ∧
    s' = { s with failure_count := 0 }) ∨
  (s.state = .closed ∧ e.outcome = false ∧
    ¬ cfg.failure_threshold ≤ s.failure_count + 1 ∧
    s' = { s with
            failure_count := s.failure_count + 1,
            last_failure_time := some e.tout }) ∨
  (s.state = .closed ∧ e.outcome = false ∧
    cfg.failure_threshold ≤ s.failure_count + 1 ∧
    s' = { s with
            state := CircuitState.opened,
            failure_count := s.failure_count + 1,
            last_failure_time := some e.tout }) ∨
  (s.state = .opened ∧
    (∃ tf, s.last_failure_time = some tf ∧ e.tg - tf < (cfg.recovery_timeout : ℤ)) ∧
    s' = s) ∨
  (s.state = .opened ∧
    (∃ tf, s.last_failure_time = some tf ∧ (cfg.recovery_timeout : ℤ) ≤ e.tg - tf) ∧
    ((e.outcome = true ∧ ¬ cfg.half_open_max_calls ≤ 1 ∧
        s' = { s with state := CircuitState.halfOpen, success_count := 1 }) ∨
     (e.outcome = true ∧ cfg.half_open_max_calls ≤ 1 ∧
        s' = { s with
                state := CircuitState.closed,
                failure_count := 0, success_count := 0 }) ∨
     (e.outcome = false ∧
        s' = { s with
                state := CircuitState.opened, success_count := 0,
                failure_count := s.failure_count + 1,
                last_failure_time := some e.tout }))) ∨
  (s.state = .halfOpen ∧ e.outcome = true ∧
    cfg.half_open_max_calls ≤ s.success_count + 1 ∧
    s' = { s with
            state := CircuitState.closed,
            failure_count := 0, success_count := 0 }) ∨
  (s.state = .halfOpen ∧ e.outcome = true ∧
    ¬ cfg.half_open_max_calls ≤ s.success_count + 1 ∧
    s' = { s with success_count := s.success_count + 1 }) ∨
  (s.state = .halfOpen ∧ e.outcome = false ∧
    s' = { s with
            state := CircuitState.opened, success_count := 0,
            failure_count := s.failure_count + 1,
            last_failure_time := some e.tout })

/-- Longest run of consecutive failure outcomes in a call sequence
(auxiliary accumulator form: `cur` is the length of the current run,
`best` the longest seen so far). -/
def maxFailRunAux : List CBEvent → Nat → Nat → Nat
  | [], _, best => best
  | e :: rest, cur, best =>
    if e.outcome then maxFailRunAux rest 0 best
    else maxFailRunAux rest (cur + 1) (max best (cur + 1))

/-- Longest run of consecutive failure outcomes in a call sequence. -/
def maxFailRun (evs : List CBEvent) : Nat := maxFailRunAux evs 0 0

/-! ## Complexity analyzer (source lines 149-274) -/

/-- `ComplexityAnalyzer.HIGH_COMPLEXITY_KEYWORDS` (lines 152-170), verbatim,
including the duplicated entry 'microsserviço' present in the source. -/
def HIGH_COMPLEXITY_KEYWORDS : List String :=
  ["completo", "complete", "sistema", "system", "aplicação", "application",
   "projeto", "project", "arquitetura", "architecture", "infraestrutura", "infrastructure",
   "multi", "múltiplos", "multiple", "vários", "various", "todos", "all",
   "frontend e backend", "full stack", "fullstack", "end-to-end", "e2e",
   "integração", "integration", "microsserviço", "microservice", "microsserviço",
   "orquestração", "orchestration", "pipeline", "workflow",
   "gateway", "pagamento", "payment", "autenticação", "authentication",
   "análise completa", "deep analysis", "troubleshooting", "debug",
   "investigação", "investigation", "diagnóstico", "diagnostic",
   "documentação completa", "complete documentation", "manual", "guia completo",
   "especificação", "specification", "detalhado", "detailed",
   "refatorar tudo", "refactor all", "reescrever", "rewrite", "migrar", "migrate",
   "todos os logs", "all logs", "histórico completo", "full history",
   "análise de logs", "log analysis",
   "ci/cd", "docker", "kubernetes", "deploy", "deployment",
   "multi-tenant", "rbac", "observabilidade", "observability", "telemetry",
   "celery", "redis", "websocket", "audit", "alembic", "migrations"]

/-- `ComplexityAnalyzer.MEDIUM_COMPLEXITY_KEYWORDS` (lines 172-176). -/
def MEDIUM_COMPLEXITY_KEYWORDS : List String :=
  ["api", "endpoint", "serviço", "service", "módulo", "module",
   "componente", "component", "feature", "funcionalidade",
   "crud", "rest", "graphql", "banco de dados", "database"]

/-- Does `pat` occur at the very start of `cs`? -/
def matchesAt : List Char → List Char → Bool
  | [], _ => true
  | _ :: _, [] => false
  | a :: as, b :: bs => a == b && matchesAt as bs

/-- Does `needle` occur contiguously anywhere in the haystack?  Models the
Python substring test `needle in hay`. -/
def containsSeq (needle : List Char) : List Char → Bool
  | [] => matchesAt needle []
  | c :: t => matchesAt needle (c :: t) || containsSeq needle t

/-- Python `needle in hay` on strings. -/
def containsSub (hay needle : String) : Bool := containsSeq needle.data hay.data

/-- Python `str.lower()`.  `Char.toLower` only lowers ASCII letters; the
accented keyword entries are already lower-case in the source lists. -/
def lowerStr (s : String) : String := ⟨s.data.map Char.toLower⟩

/-- Word character for the regex `\b` boundaries: Python `\w` is
alphanumerics, underscore and (with the default Unicode flag) every
non-ASCII letter; the non-ASCII characters occurring in the source's
patterns and realistic inputs are accented letters, so any code point
above 127 is treated as a word character. -/
def isWordChar (c : Char) : Bool := c.isAlphanum || c == '_' || 127 < c.toNat

/-- Python regex `\s` (ASCII range: space, tab, newline, return, VT, FF). -/
def isSpaceChar (c : Char) : Bool :=
  c == ' ' || c == '\t' || c == '\n' || c == '\r' || c.toNat == 11 || c.toNat == 12

/-- Strip a literal from the front of the input, returning the rest. -/
def stripLit : List Char → List Char → Option (List Char)
  | [], cs => some cs
  | _ :: _, [] => none
  | l :: ls, c :: cs => if c == l then stripLit ls cs else none

/-- All alternatives of a regex alternation of literals that match at the
front of the input (Python's backtracking tries each). -/
def stripAlts (alts : List String) (cs : List Char) : List (List Char) :=
  alts.filterMap (fun a => stripLit a.data cs)

/-- Regex `p+` for a character class `p` (greedy; exact here because in every
source pattern the class is disjoint from what may follow it). -/
def dropWhile1 (p : Char → Bool) : List Char → Option (List Char)
  | [] => none
  | c :: cs => if p c then some (cs.dropWhile p) else none

/-- Regex `\+?` (greedy; exact because `+` can never start the sequel). -/
def optPlusChar : List Char → List Char
  | '+' :: cs => cs
  | cs => cs

/-- Trailing `\b` after a word character: next char absent or not a word char. -/
def atWordEnd : List Char → Bool
  | [] => true
  | c :: _ => !isWordChar c

/-- Pattern `\b\d+\+?\s*(arquivos|files|componentes|components|módulos|modules)\b`
(source line 179), matched at the current position (leading `\b` is checked by
the search driver). -/
def pat1At (cs : List Char) : Bool :=
  match dropWhile1 Char.isDigit cs with
  | none => false
  | some cs1 =>
    let cs2 := (optPlusChar cs1).dropWhile isSpaceChar
    (stripAlts ["arquivos", "files", "componentes", "components", "módulos", "modules"] cs2).any
      atWordEnd

/-- Pattern `\b(criar|create|desenvolver|develop|implementar|implement)\s+(um|uma|a)\s+sistema\b`
(source line 180). -/
def pat2At (cs : List Char) : Bool :=
  (stripAlts ["criar", "create", "desenvolver", "develop", "implementar", "implement"] cs).any
    fun cs1 =>
      match dropWhile1 isSpaceChar cs1 with
      | none => false
      | some cs2 =>
        (stripAlts ["um", "uma", "a"] cs2).any fun cs3 =>
          match dropWhile1 isSpaceChar cs3 with
          | none => false
          | some cs4 =>
            match stripLit "sistema".data cs4 with
            | none => false
            | some cs5 => atWordEnd cs5

/-- Pattern `\b(backend|frontend)\s+(e|and)\s+(frontend|backend)\b`
(source line 181). -/
def pat3At (cs : List Char) : Bool :=
  (stripAlts ["backend", "frontend"] cs).any fun cs1 =>
    match dropWhile1 isSpaceChar cs1 with
    | none => false
    | some cs2 =>
      (stripAlts ["e", "and"] cs2).any fun cs3 =>
        match dropWhile1 isSpaceChar cs3 with
        | none => false
        | some cs4 =>
          (stripAlts ["frontend", "backend"] cs4).any atWordEnd

/-- Pattern `\b(com|with)\s+\d+\+?\s+(funcionalidades|features|endpoints)\b`
(source line 182). -/
def pat4At (cs : List Char) : Bool :=
  (stripAlts ["com", "with"] cs).any fun cs1 =>
    match dropWhile1 isSpaceChar cs1 with
    | none => false
    | some cs2 =>
      match dropWhile1 Char.isDigit cs2 with
      | none => false
      | some cs3 =>
        match dropWhile1 isSpaceChar (optPlusChar cs3) with
        | none => false
        | some cs4 =>
          (stripAlts ["funcionalidades", "features", "endpoints"] cs4).any atWordEnd

/-- `HIGH_COMPLEXITY_PATTERNS` (lines 178-183) as position matchers. -/
def patternMatchers : List (List Char → Bool) := [pat1At, pat2At, pat3At, pat4At]

/-- `re.search` driver: try the matcher at every position; every source
pattern starts with `\b` followed by a word character, so a match may start
only where the preceding character is not a word character. -/
def searchFrom (m : List Char → Bool) (prevIsWord : Bool) : List Char → Bool
  | [] => !prevIsWord && m []
  | c :: rest => (!prevIsWord && m (c :: rest)) || searchFrom m (isWordChar c) rest

/-- `re.search(p, s)` as a boolean. -/
def reSearch (m : List Char → Bool) (s : String) : Bool := searchFrom m false s.data

/-- `len(patterns_found)` (lines 229-231). -/
def patternCount (tl : String) : Nat :=
  (patternMatchers.filter (fun m => reSearch m tl)).length

/-- Length-bucket score (lines 199-212). -/
def lengthScore (n : Nat) : Nat :=
  if 1500 < n then 40
  else if 800 < n then 30
  else if 400 < n then 20
  else if 200 < n then 15
  else 0

/-- `high_keywords_found` (line 215): entries of the keyword list occurring in
the lower-cased text (the source filters the list, so a duplicated entry is
counted twice). -/
def highKeywordsFound (tl : String) : List String :=
  HIGH_COMPLEXITY_KEYWORDS.filter (fun kw => containsSub tl kw)

/-- `medium_keywords_found` (line 222). -/
def mediumKeywordsFound (tl : String) : List String :=
  MEDIUM_COMPLEXITY_KEYWORDS.filter (fun kw => containsSub tl kw)

/-- `estimated_tokens` (lines 235-247); `charCount` is `len(text)`. -/
def estimatedTokens (tl : String) (charCount : Nat) : Nat :=
  1000
  + (if containsSub tl "completo" || containsSub tl "complete" then 3000 else 0)
  + (if containsSub tl "sistema" || containsSub tl "system" then 2000 else 0)
  + (if containsSub tl "documentação" || containsSub tl "documentation" then 2000 else 0)
  + (if containsSub tl "todos" || containsSub tl "all" then 1500 else 0)
  + (if containsSub tl "análise" || containsSub tl "analysis" then 1000 else 0)
  + charCount / 2

/-- The accumulated `score` before the final clamp (lines 196-231). -/
def rawScore (text : String) : Nat :=
  lengthScore text.length
    + min ((highKeywordsFound (lowerStr text)).length * 8) 50
    + min ((mediumKeywordsFound (lowerStr text)).length * 4) 20
    + min (patternCount (lowerStr text) * 15) 45

/-- The `reasons` list (lines 197-233). -/
def reasonsOf (text : String) : List String :=
  let tl := lowerStr text
  let n := text.length
  let hi := highKeywordsFound tl
  let med := mediumKeywordsFound tl
  let nh := hi.length
  let nm := med.length
  let np := patternCount tl
  let hijoin := String.intercalate ", " (hi.take 3)
  let medjoin := String.intercalate ", " (med.take 3)
  (if 1500 < n then [s!"Input muito grande ({n} caracteres)"]
   else if 800 < n then [s!"Input grande ({n} caracteres)"]
   else if 400 < n then [s!"Input médio ({n} caracteres)"]
   else if 200 < n then [s!"Input moderado ({n} caracteres)"]
   else [])
  ++ (if nh ≠ 0 then [s!"Palavras de alta complexidade ({nh}): {hijoin}"] else [])
  ++ (if nm ≠ 0 then [s!"Palavras de média complexidade ({nm}): {medjoin}"] else [])
  ++ (if np ≠ 0 then [s!"Padrões complexos detectados ({np})"] else [])

/-- Classification by thresholds (lines 249-261): level, recommended model
and recommended timeout from the unclamped score and the token estimate. -/
def classify (score est : Nat) : String × String × Nat :=
  if 45 ≤ score then
    ("high", "deepseek-reasoner", 120)
  else if 25 ≤ score then
    ("medium", if 4000 < est || 35 < score then "deepseek-reasoner" else "deepseek-chat", 90)
  else
    ("low", "deepseek-chat", 60)

/-- The `ComplexityAnalysis` dictionary returned by `analyze` (lines 263-274). -/
structure ComplexityAnalysis where
  level : String
  score : Nat
  estimated_tokens : Nat
  recommended_model : String
  recommended_timeout : Nat
  reasons : List String
  keywords_high : List String
  keywords_medium : List String
deriving DecidableEq, Repr

/-- `ComplexityAnalyzer.analyze` on the flattened text (lines 195-274). -/
def analyzeText (text : String) : ComplexityAnalysis :=
  let tl := lowerStr text
  let score := rawScore text
  let est := estimatedTokens tl text.length
  let c := classify score est
  { level := c.1
    score := min score 100
    estimated_tokens := est
    recommended_model := c.2.1
    recommended_timeout := c.2.2
    reasons := reasonsOf text
    keywords_high := (highKeywordsFound tl).take 5
    keywords_medium := (mediumKeywordsFound tl).take 5 }

/-- A chat message: the `{'role': ..., 'content': ...}` dictionaries that
reach the analyzer. -/
structure Msg where
  role : String
  content : String
deriving DecidableEq, Repr

/-- Input flattening (lines 188-193): a raw string is used as-is, a message
list is joined on spaces (`' '.join(...)`). -/
def flattenInput : Sum String (List Msg) → String
  | .inl s => s
  | .inr ms => String.intercalate " " (ms.map (·.content))

/-- `ComplexityAnalyzer.analyze` (lines 185-274). -/
def analyze (input : Sum String (List Msg)) : ComplexityAnalysis :=
  analyzeText (flattenInput input)

/-! ## LLM router (source lines 277-704)

Providers are modelled as oracles `Nat → Except String String`: the outcome
of the `attempt`-th network call of one `_call_deepseek` / `_call_openai`
invocation (`.ok answer`, or `.error message` for a raised exception's
`str(e)`).  Jitter samples from `random.uniform(0, 1)` are an oracle
`Nat → ℚ`.  A whole `LLMRouter.call` is modelled at a single wall-clock
instant `t`: the claims verified here do not depend on time advancing
inside one call. -/

/-- Constructor configuration of `LLMRouter.__init__` (lines 282-300). -/
structure RouterParams where
  default_model : String := "deepseek-chat"
  max_retries : Nat := 3
  base_timeout : Nat := 60
  auto_complexity_detection : Bool := true
  enable_circuit_breaker : Bool := true
deriving DecidableEq, Repr

/-- DeepSeek breaker parameters (lines 317-321). -/
def deepseekBreakerConfig : CBConfig := ⟨5, 60, 3⟩

/-- OpenAI breaker parameters (lines 323-327). -/
def openaiBreakerConfig : CBConfig := ⟨3, 30, 2⟩

/-- The `self.stats` dictionary (lines 332-348).  `complexity_*` and
`adaptive_*` flatten the two nested histograms; `errors` keeps only the
messages (the source pairs each with a timestamp). -/
structure Stats where
  deepseek_chat_calls : Nat := 0
  deepseek_chat_successes : Nat := 0
  deepseek_reasoner_calls : Nat := 0
  deepseek_reasoner_successes : Nat := 0
  deepseek_failures : Nat := 0
  deepseek_timeouts : Nat := 0
  deepseek_circuit_breaks : Nat := 0
  openai_calls : Nat := 0
  openai_successes : Nat := 0
  openai_failures : Nat := 0
  openai_circuit_breaks : Nat := 0
  total_fallbacks : Nat := 0
  complexity_low : Nat := 0
  complexity_medium : Nat := 0
  complexity_high : Nat := 0
  adaptive_60 : Nat := 0
  adaptive_90 : Nat := 0
  adaptive_120 : Nat := 0
  errors : List String := []
deriving DecidableEq, Repr

/-- Full router state: stats, the two breakers, and the `last_health_check`
cache (line 331), one entry per API name. -/
structure RouterState where
  stats : Stats := {}
  dsBreaker : CBState := cbInit
  oaBreaker : CBState := cbInit
  dsHealth : Option (ℤ × Bool) := none
  oaHealth : Option (ℤ × Bool) := none
deriving DecidableEq, Repr

/-- Router state right after `__init__`. -/
def routerInit : RouterState := {}

/-- Result of one `_execute` retry loop (lines 476-527 / 554-593):
the final outcome, the number of provider attempts performed, the total
backoff waited between attempts, and the error message of every failed
attempt in order. -/
instance : DecidableEq (Except String String) := fun a b =>
  match a, b with
  | .ok x, .ok y => if h : x = y then .isTrue (by rw [h]) else .isFalse (by simp [h])
  | .error x, .error y => if h : x = y then .isTrue (by rw [h]) else .isFalse (by simp [h])
  | .ok _, .error _ => .isFalse (by simp)
  | .error _, .ok _ => .isFalse (by simp)

structure ExecResult where
  result : Except String String
  attempts : Nat
  backoff : ℚ
  errors : List String
deriving DecidableEq, Repr

/-- The `for attempt in range(max_retries)` retry loop shared by
`_call_deepseek._execute` (lines 479-527) and `_call_openai._execute`
(lines 557-593), from the given attempt index.  On failure the loop waits
`2 ** attempt + random.uniform(0, 1)` before the next attempt unless this
was the last one (`attempt < max_retries - 1`, written `attempt + 1 < mr`
to avoid truncated subtraction); when the range is empty the source raises
with `last_error = None`, modelled as the error string "None". -/
def execLoopAux (prov : Nat → Except String String) (jit : Nat → ℚ) :
    Nat → Nat → ExecResult
  | 0, _ => ⟨.error "None", 0, 0, []⟩
  | fuel + 1, attempt =>
    match prov attempt with
    | .ok r => ⟨.ok r, 1, 0, []⟩
    | .error e =>
      if 0 < fuel then
        let rest := execLoopAux prov jit fuel (attempt + 1)
        ⟨rest.result, rest.attempts + 1, rest.backoff + ((2 : ℚ) ^ attempt + jit attempt),
          e :: rest.errors⟩
      else
        ⟨.error e, 1, 0, [e]⟩

/-- The retry loop entered at attempt index `attempt`: the source's loop
condition `attempt < max_retries` becomes a positive remaining-iteration
count `mr - attempt`, and `attempt < max_retries - 1` (another retry after
this failure) becomes `0 < fuel` for the remaining count `fuel + 1`. -/
def execLoop (mr : Nat) (prov : Nat → Except String String) (jit : Nat → ℚ)
    (attempt : Nat) : ExecResult :=
  execLoopAux prov jit (mr - attempt) attempt

/-- Error classification `'timeout' in error_str or 'timed out' in error_str`
on the lower-cased message (lines 511-514). -/
def isTimeoutMsg (e : String) : Bool :=
  containsSub (lowerStr e) "timeout" || containsSub (lowerStr e) "timed out"

/-- The guard-rejection message raised by `CircuitBreaker.call`
(lines 86-89); the interpolated remaining-seconds figure is elided, only the
prefix is ever inspected by the source (`"Circuit Breaker OPEN" in str(e)`). -/
def cbGuardMsg : String := "Circuit Breaker OPEN: API indisponível. Tentará novamente em breve"

/-- Stats and result effect of `_call_deepseek._execute` (lines 476-527):
run the retry loop, count each caught error classified as a timeout
(`deepseek_timeouts`), count the success for the selected model tier, and
wrap a final failure as `DeepSeek failed: ...` truncated to 100 characters. -/
def dsExecStats (p : RouterParams) (model : String) (st : Stats)
    (prov : Nat → Except String String) (jit : Nat → ℚ) :
    Except String String × Stats × Nat :=
  let r := execLoop p.max_retries prov jit 0
  let st1 := { st with
    deepseek_timeouts := st.deepseek_timeouts + (r.errors.filter isTimeoutMsg).length }
  let st2 := match r.result with
    | .ok _ =>
      if model == "deepseek-chat" then
        { st1 with deepseek_chat_successes := st1.deepseek_chat_successes + 1 }
      else
        { st1 with deepseek_reasoner_successes := st1.deepseek_reasoner_successes + 1 }
    | .error _ => st1
  (r.result.mapError (fun e => "DeepSeek failed: " ++ e.take 100), st2, r.attempts)

/-- `LLMRouter._call_deepseek` (lines 456-539): bump the per-tier call
counter, run `_execute` under the DeepSeek circuit breaker when enabled, and
count a `deepseek_circuit_breaks` whenever the raised error message contains
"Circuit Breaker OPEN" (lines 530-537).  Returns (result, new state, number
of provider attempts performed). -/
def callDeepseekModel (p : RouterParams) (st : RouterState) (model : String)
    (prov : Nat → Except String String) (jit : Nat → ℚ) (t : ℤ) :
    Except String String × RouterState × Nat :=
  let stats0 :=
    if model == "deepseek-chat" then
      { st.stats with deepseek_chat_calls := st.stats.deepseek_chat_calls + 1 }
    else
      { st.stats with deepseek_reasoner_calls := st.stats.deepseek_reasoner_calls + 1 }
  if p.enable_circuit_breaker then
    if st.dsBreaker.state = .opened ∧ ¬ shouldAttemptReset deepseekBreakerConfig st.dsBreaker t then
      -- guard rejected: the wrapped operation never runs (lines 83-89)
      let stats1 := { stats0 with
        deepseek_circuit_breaks := stats0.deepseek_circuit_breaks + 1 }
      (.error cbGuardMsg, { st with stats := stats1 }, 0)
    else
      -- admitted: an OPEN breaker first moves to HALF_OPEN (lines 79-82)
      let b1 :=
        if st.dsBreaker.state = .opened then
          { st.dsBreaker with state := CircuitState.halfOpen, success_count := 0 }
        else st.dsBreaker
      let e := dsExecStats p model stats0 prov jit
      let b2 := match e.1 with
        | .ok _ => onSuccess deepseekBreakerConfig b1
        | .error _ => onFailure deepseekBreakerConfig b1 t
      let stats2 := match e.1 with
        | .error msg =>
          if containsSub msg "Circuit Breaker OPEN" then
            { e.2.1 with deepseek_circuit_breaks := e.2.1.deepseek_circuit_breaks + 1 }
          else e.2.1
        | .ok _ => e.2.1
      (e.1, { st with stats := stats2, dsBreaker := b2 }, e.2.2)
  else
    let e := dsExecStats p model stats0 prov jit
    (e.1, { st with stats := e.2.1 }, e.2.2)

/-- Stats and result effect of `_call_openai._execute` (lines 554-593): same
retry loop; no timeout counter, successes recorded in `openai_successes`,
failure wrapped as `OpenAI failed: ...`. -/
def oaExecStats (p : RouterParams) (st : Stats)
    (prov : Nat → Except String String) (jit : Nat → ℚ) :
    Except String String × Stats × Nat :=
  let r := execLoop p.max_retries prov jit 0
  let st1 := match r.result with
    | .ok _ => { st with openai_successes := st.openai_successes + 1 }
    | .error _ => st
  (r.result.mapError (fun e => "OpenAI failed: " ++ e.take 100), st1, r.attempts)

/-- `LLMRouter._call_openai` (lines 541-604): bump `openai_calls` *and*
`total_fallbacks` unconditionally on entry (lines 548-550), then run
`_execute` under the OpenAI circuit breaker when enabled. -/
def callOpenaiModel (p : RouterParams) (st : RouterState)
    (prov : Nat → Except String String) (jit : Nat → ℚ) (t : ℤ) :
    Except String String × RouterState × Nat :=
  let stats0 := { st.stats with
    openai_calls := st.stats.openai_calls + 1,
    total_fallbacks := st.stats.total_fallbacks + 1 }
  if p.enable_circuit_breaker then
    if st.oaBreaker.state = .opened ∧ ¬ shouldAttemptReset openaiBreakerConfig st.oaBreaker t then
      let stats1 := { stats0 with
        openai_circuit_breaks := stats0.openai_circuit_breaks + 1 }
      (.error cbGuardMsg, { st with stats := stats1 }, 0)
    else
      let b1 :=
        if st.oaBreaker.state = .opened then
          { st.oaBreaker with state := CircuitState.halfOpen, success_count := 0 }
        else st.oaBreaker
      let e := oaExecStats p stats0 prov jit
      let b2 := match e.1 with
        | .ok _ => onSuccess openaiBreakerConfig b1
        | .error _ => onFailure openaiBreakerConfig b1 t
      let stats2 := match e.1 with
        | .error msg =>
          if containsSub msg "Circuit Breaker OPEN" then
            { e.2.1 with openai_circuit_breaks := e.2.1.openai_circuit_breaks + 1 }
          else e.2.1
        | .ok _ => e.2.1
      (e.1, { st with stats := stats2, oaBreaker := b2 }, e.2.2)
  else
    let e := oaExecStats p stats0 prov jit
    (e.1, { st with stats := e.2.1 }, e.2.2)

/-- `LLMRouter._record_error` (lines 606-614): append and keep the last 10. -/
def recordError (st : Stats) (msg : String) : Stats :=
  let es := st.errors ++ [msg]
  { st with errors := if 10 < es.length then es.drop (es.length - 10) else es }

/-- `LLMRouter._health_check` (lines 357-379) for one API: a cached verdict
younger than 30 seconds is reused; otherwise the verdict is healthy unless
circuit breaking is enabled and that API's breaker is OPEN.  Returns the
verdict and the updated cache entry. -/
def healthCheckFn (p : RouterParams) (cache : Option (ℤ × Bool)) (breaker : CBState)
    (t : ℤ) : Bool × Option (ℤ × Bool) :=
  match cache with
  | some (tc, h) =>
    if t - tc < (30 : ℤ) then (h, some (tc, h))
    else if p.enable_circuit_breaker ∧ breaker.state = .opened then (false, some (t, false))
    else (true, some (t, true))
  | none =>
    if p.enable_circuit_breaker ∧ breaker.state = .opened then (false, some (t, false))
    else (true, some (t, true))

/-- One invocation of `LLMRouter.call`: the input, whether `tools` was
non-empty, the wall-clock instant, and the oracles for the two providers'
attempt outcomes and jitter samples. -/
structure CallEvent where
  messages : Sum String (List Msg)
  hasTools : Bool
  t : ℤ
  dsProv : Nat → Except String String
  oaProv : Nat → Except String String
  dsJit : Nat → ℚ
  oaJit : Nat → ℚ

/-- Model/timeout selection (lines 397-414): with auto detection the
analyzer's recommendation is used unless tools force `deepseek-chat`. -/
def selectedModelOf (p : RouterParams) (ev : CallEvent) : String :=
  if p.auto_complexity_detection then
    if ev.hasTools then "deepseek-chat" else (analyze ev.messages).recommended_model
  else p.default_model

/-- Histogram updates under the lock (lines 404-408): complexity level count
and adaptive-timeout count (the timeout key is always one of 60s/90s/120s). -/
def analysisStats (p : RouterParams) (s : Stats) (ev : CallEvent) : Stats :=
  if p.auto_complexity_detection then
    let a := analyze ev.messages
    let s1 :=
      if a.level == "low" then { s with complexity_low := s.complexity_low + 1 }
      else if a.level == "medium" then { s with complexity_medium := s.complexity_medium + 1 }
      else if a.level == "high" then { s with complexity_high := s.complexity_high + 1 }
      else s
    if a.recommended_timeout == 60 then { s1 with adaptive_60 := s1.adaptive_60 + 1 }
    else if a.recommended_timeout == 90 then { s1 with adaptive_90 := s1.adaptive_90 + 1 }
    else if a.recommended_timeout == 120 then { s1 with adaptive_120 := s1.adaptive_120 + 1 }
    else s1
  else s

/-- State after the health checks of both APIs (lines 417-418), plus the two
verdicts: DeepSeek is checked first, then OpenAI. -/
def afterHealth (p : RouterParams) (st : RouterState) (t : ℤ) :
    Bool × Bool × RouterState :=
  let d := healthCheckFn p st.dsHealth st.dsBreaker t
  let o := healthCheckFn p st.oaHealth st.oaBreaker t
  (d.1, o.1, { st with dsHealth := d.2, oaHealth := o.2 })

/-- Router state at the point where provider selection happens inside
`call`: complexity histograms recorded, both health caches refreshed. -/
def routerStateAt (p : RouterParams) (st0 : RouterState) (ev : CallEvent) : RouterState :=
  (afterHealth p { st0 with stats := analysisStats p st0.stats ev } ev.t).2.2

/-- The `deepseek_healthy` flag of this call (line 417). -/
def dsHealthyFlag (p : RouterParams) (st0 : RouterState) (ev : CallEvent) : Bool :=
  (afterHealth p { st0 with stats := analysisStats p st0.stats ev } ev.t).1

/-- The `openai_healthy` flag of this call (line 418). -/
def oaHealthyFlag (p : RouterParams) (st0 : RouterState) (ev : CallEvent) : Bool :=
  (afterHealth p { st0 with stats := analysisStats p st0.stats ev } ev.t).2.1

/-- Observable per-call effort: how many times each `_call_*` helper was
entered and how many network attempts were made against each provider. -/
structure CallObs where
  dsPasses : Nat
  oaPasses : Nat
  dsAttempts : Nat
  oaAttempts : Nat
deriving DecidableEq, Repr

/-- `LLMRouter.call` (lines 381-454). -/
def callRouter (p : RouterParams) (st0 : RouterState) (ev : CallEvent) :
    Except String String × RouterState × CallObs :=
  let st := routerStateAt p st0 ev
  let dsH := dsHealthyFlag p st0 ev
  let oaH := oaHealthyFlag p st0 ev
  let m := selectedModelOf p ev
  if dsH then
    let d := callDeepseekModel p st m ev.dsProv ev.dsJit ev.t
    match d.1 with
    | .ok res => (.ok res, d.2.1, ⟨1, 0, d.2.2, 0⟩)
    | .error e1 =>
      if oaH then
        let o := callOpenaiModel p d.2.1 ev.oaProv ev.oaJit ev.t
        match o.1 with
        | .ok res => (.ok res, o.2.1, ⟨1, 1, d.2.2, o.2.2⟩)
        | .error e2 =>
          let msg := "Ambas APIs falharam. DeepSeek: " ++ e1.take 100
            ++ ", OpenAI: " ++ e2.take 100
          (.error msg, { o.2.1 with stats := recordError (o.2.1).stats msg },
            ⟨1, 1, d.2.2, o.2.2⟩)
      else
        (.error ("DeepSeek falhou e OpenAI indisponível: " ++ e1.take 100), d.2.1,
          ⟨1, 0, d.2.2, 0⟩)
  else
    if oaH then
      let o := callOpenaiModel p st ev.oaProv ev.oaJit ev.t
      match o.1 with
      | .ok res => (.ok res, o.2.1, ⟨0, 1, 0, o.2.2⟩)
      | .error e =>
        let msg := "OpenAI falhou: " ++ e.take 100
        (.error msg, { o.2.1 with stats := recordError (o.2.1).stats msg },
          ⟨0, 1, 0, o.2.2⟩)
    else
      (.error "Ambas APIs indisponíveis (circuit breakers OPEN)", st, ⟨0, 0, 0, 0⟩)

/-- Router state after one `call`. -/
def routerStep (p : RouterParams) (st : RouterState) (ev : CallEvent) : RouterState :=
  (callRouter p st ev).2.1

/-- Router state after a sequence of `call`s on a freshly constructed router. -/
def runRouter (p : RouterParams) (evs : List CallEvent) : RouterState :=
  evs.foldl (routerStep p) routerInit

/-- The fields of `get_stats()` (lines 625-661) referenced by the claims:
per-provider calls / successes / `failures` counters and the global
`total_fallbacks`, copied from the stats dictionary. -/
structure StatsView where
  deepseek_calls : Nat
  deepseek_successes : Nat
  deepseek_failures : Nat
  openai_calls : Nat
  openai_successes : Nat
  openai_failures : Nat
  total_fallbacks : Nat
deriving DecidableEq, Repr

/-- `LLMRouter.get_stats` (lines 625-661), restricted to the claim-relevant
fields. -/
def getStats (st : RouterState) : StatsView :=
  { deepseek_calls := st.stats.deepseek_chat_calls + st.stats.deepseek_reasoner_calls
    deepseek_successes := st.stats.deepseek_chat_successes + st.stats.deepseek_reasoner_successes
    deepseek_failures := st.stats.deepseek_failures
    openai_calls := st.stats.openai_calls
    openai_successes := st.stats.openai_successes
    openai_failures := st.stats.openai_failures
    total_fallbacks := st.stats.total_fallbacks }

/-! ## Concrete fixtures used by witnesses and counterexamples -/

/-- Zero jitter oracle. -/
def zeroJit : Nat → ℚ := fun _ => 0

/-- Router configured with complexity auto-detection off (a constructor
option of the source router); all other parameters at their defaults. -/
def pNoAuto : RouterParams := { auto_complexity_detection := false }

/-- A call whose provider oracles fail every attempt on both providers. -/
def evBothFail : CallEvent :=
  ⟨Sum.inl "hello", false, 0,
    fun _ => .error "boom-ds", fun _ => .error "boom-oa", zeroJit, zeroJit⟩

/-- A call whose primary provider raises a rate-limit (429) error on every
attempt and whose secondary succeeds. -/
def ev429 : CallEvent :=
  ⟨Sum.inl "hello", false, 0,
    fun _ => .error "Error code: 429 - Rate limit reached", fun _ => .ok "ok",
    zeroJit, zeroJit⟩

/-- A call at instant `t` on which both providers fail every attempt. -/
def evFailBoth (t : ℤ) : CallEvent :=
  ⟨Sum.inl "x", false, t, fun _ => .error "e", fun _ => .error "w", zeroJit, zeroJit⟩

/-! ## Theorems -/

/-! ### Circuit breaker helper lemmas -/

theorem runCB_append (cfg : CBConfig) (evs : List CBEvent) (e : CBEvent) :
    runCB cfg (evs ++ [e]) = cbStep cfg (runCB cfg evs) e := by
  simp [runCB, List.foldl_append]

theorem onSuccess_lft (cfg : CBConfig) (s : CBState) :
    (onSuccess cfg s).last_failure_time = s.last_failure_time := by
  unfold onSuccess; split_ifs <;> rfl

theorem onFailure_lft (cfg : CBConfig) (s : CBState) (now : ℤ) :
    (onFailure cfg s now).last_failure_time = some now := by
  unfold onFailure; split_ifs <;> rfl

theorem onSuccess_state_open (cfg : CBConfig) (s : CBState) :
    (onSuccess cfg s).state = .opened → s.state = .opened := by
  unfold onSuccess; split_ifs <;> simp_all

/-- One `call` preserves the invariant that an OPEN breaker has a recorded
last failure time. -/
theorem cbStep_open_inv (cfg : CBConfig) (s : CBState) (e : CBEvent)
    (h : s.state = .opened → s.last_failure_time.isSome) :
    (cbStep cfg s e).state = .opened → (cbStep cfg s e).last_failure_time.isSome := by
  unfold cbStep callStep
  by_cases hs : s.state = .opened
  · rw [if_pos hs]
    by_cases hr : shouldAttemptReset cfg s e.tg
    · rw [if_pos hr]
      rcases ho : e.outcome with _ | _
      · intro _
        show (onFailure cfg _ e.tout).last_failure_time.isSome
        rw [onFailure_lft]; rfl
      · intro hop
        have hop' : (onSuccess cfg { s with state := CircuitState.halfOpen, success_count := 0 }).state = .opened := hop
        exact absurd (onSuccess_state_open cfg _ hop') (by simp)
    · rw [if_neg hr]
      exact h
  · rw [if_neg hs]
    rcases ho : e.outcome with _ | _
    · intro _
      show (onFailure cfg s e.tout).last_failure_time.isSome
      rw [onFailure_lft]; rfl
    · intro hop
      have hop' : (onSuccess cfg s).state = .opened := hop
      show (onSuccess cfg s).last_failure_time.isSome
      rw [onSuccess_lft]
      exact h (onSuccess_state_open cfg s hop')

/-- Every state reachable from a fresh breaker satisfies the invariant. -/
theorem runCB_open_inv (cfg : CBConfig) (evs : List CBEvent) :
    (runCB cfg evs).state = .opened → (runCB cfg evs).last_failure_time.isSome := by
  suffices h : ∀ (l : List CBEvent) (s : CBState),
      (s.state = .opened → s.last_failure_time.isSome) →
      ((l.foldl (cbStep cfg) s).state = .opened → (l.foldl (cbStep cfg) s).last_failure_time.isSome) by
    exact h evs cbInit (by intro hc; simp [cbInit] at hc)
  intro l
  induction l with
  | nil => intro s hs; simpa using hs
  | cons e rest ih =>
    intro s hs
    exact ih (cbStep cfg s e) (cbStep_open_inv cfg s e hs)

theorem onFailure_state_of_halfOpen (cfg : CBConfig) (s : CBState) (now : ℤ)
    (h : s.state = .halfOpen) : (onFailure cfg s now).state = .opened := by
  unfold onFailure; rw [if_pos h]

theorem onFailure_of_closed_reach (cfg : CBConfig) (s : CBState) (now : ℤ)
    (hc : s.state = .closed) (hth : cfg.failure_threshold ≤ s.failure_count + 1) :
    onFailure cfg s now = { s with
      state := CircuitState.opened,
      failure_count := s.failure_count + 1, last_failure_time := some now } := by
  unfold onFailure
  rw [if_neg (by rw [hc]; simp), if_pos hc, if_pos hth]

theorem onFailure_of_closed_below (cfg : CBConfig) (s : CBState) (now : ℤ)
    (hc : s.state = .closed) (hth : ¬ cfg.failure_threshold ≤ s.failure_count + 1) :
    onFailure cfg s now = { s with
      failure_count := s.failure_count + 1, last_failure_time := some now } := by
  unfold onFailure
  rw [if_neg (by rw [hc]; simp), if_pos hc, if_neg hth]

theorem onSuccess_of_closed (cfg : CBConfig) (s : CBState) (hc : s.state = .closed) :
    onSuccess cfg s = { s with failure_count := 0 } := by
  unfold onSuccess
  rw [if_neg (by rw [hc]; simp), if_pos hc]

theorem onSuccess_of_halfOpen_reach (cfg : CBConfig) (s : CBState)
    (h : s.state = .halfOpen) (hm : cfg.half_open_max_calls ≤ s.success_count + 1) :
    onSuccess cfg s = { s with
      state := CircuitState.closed, failure_count := 0, success_count := 0 } := by
  unfold onSuccess; rw [if_pos h, if_pos hm]

theorem onSuccess_of_halfOpen_below (cfg : CBConfig) (s : CBState)
    (h : s.state = .halfOpen) (hm : ¬ cfg.half_open_max_calls ≤ s.success_count + 1) :
    onSuccess cfg s = { s with success_count := s.success_count + 1 } := by
  unfold onSuccess; rw [if_pos h, if_neg hm]

/-! ### C2: exactly N consecutive failures open a CLOSED breaker -/

theorem cbStep_closed_fail (cfg : CBConfig) (s : CBState) (e : CBEvent)
    (hc : s.state = .closed) (ho : e.outcome = false)
    (hth : ¬ cfg.failure_threshold ≤ s.failure_count + 1) :
    cbStep cfg s e =
      { s with failure_count := s.failure_count + 1, last_failure_time := some e.tout } := by
  unfold cbStep callStep
  rw [if_neg (by rw [hc]; simp), ho]
  show onFailure cfg s e.tout = _
  rw [onFailure_of_closed_below cfg s e.tout hc hth]

theorem cbStep_closed_fail_opens (cfg : CBConfig) (s : CBState) (e : CBEvent)
    (hc : s.state = .closed) (ho : e.outcome = false)
    (hth : cfg.failure_threshold ≤ s.failure_count + 1) :
    cbStep cfg s e =
      { s with
          state := CircuitState.opened,
          failure_count := s.failure_count + 1, last_failure_time := some e.tout } := by
  unfold cbStep callStep
  rw [if_neg (by rw [hc]; simp), ho]
  show onFailure cfg s e.tout = _
  rw [onFailure_of_closed_reach cfg s e.tout hc hth]

theorem cbStep_closed_success (cfg : CBConfig) (s : CBState) (e : CBEvent)
    (hc : s.state = .closed) (ho : e.outcome = true) :
    cbStep cfg s e = { s with failure_count := 0 } := by
  unfold cbStep callStep
  rw [if_neg (by rw [hc]; simp), ho]
  show onSuccess cfg s = _
  rw [onSuccess_of_closed cfg s hc]

/-! ### C1: the breaker only ever makes the four legal transitions -/

theorem cbStep_open_rejected (cfg : CBConfig) (s : CBState) (e : CBEvent)
    (hs : s.state = .opened) (hr : ¬ shouldAttemptReset cfg s e.tg = true) :
    cbStep cfg s e = s := by
  unfold cbStep callStep
  rw [if_pos hs, if_neg hr]

theorem cbStep_open_admit_fail (cfg : CBConfig) (s : CBState) (e : CBEvent)
    (hs : s.state = .opened) (hr : shouldAttemptReset cfg s e.tg = true)
    (ho : e.outcome = false) :
    cbStep cfg s e = { s with
      state := CircuitState.opened, success_count := 0,
      failure_count := s.failure_count + 1, last_failure_time := some e.tout } := by
  unfold cbStep callStep
  rw [if_pos hs, if_pos hr, ho]
  show onFailure cfg { s with state := CircuitState.halfOpen, success_count := 0 } e.tout = _
  unfold onFailure
  rw [if_pos rfl]

theorem cbStep_open_admit_success_reach (cfg : CBConfig) (s : CBState) (e : CBEvent)
    (hs : s.state = .opened) (hr : shouldAttemptReset cfg s e.tg = true)
    (ho : e.outcome = true) (hm : cfg.half_open_max_calls ≤ 1) :
    cbStep cfg s e = { s with
      state := CircuitState.closed, failure_count := 0, success_count := 0 } := by
  unfold cbStep callStep
  rw [if_pos hs, if_pos hr, ho]
  show onSuccess cfg { s with state := CircuitState.halfOpen, success_count := 0 } = _
  rw [onSuccess_of_halfOpen_reach cfg _ rfl (by simpa using hm)]

theorem cbStep_open_admit_success_below (cfg : CBConfig) (s : CBState) (e : CBEvent)
    (hs : s.state = .opened) (hr : shouldAttemptReset cfg s e.tg = true)
    (ho : e.outcome = true) (hm : ¬ cfg.half_open_max_calls ≤ 1) :
    cbStep cfg s e = { s with state := CircuitState.halfOpen, success_count := 1 } := by
  unfold cbStep callStep
  rw [if_pos hs, if_pos hr, ho]
  show onSuccess cfg { s with state := CircuitState.halfOpen, success_count := 0 } = _
  rw [onSuccess_of_halfOpen_below cfg _ rfl (by simpa using hm)]

theorem cbStep_halfOpen_fail (cfg : CBConfig) (s : CBState) (e : CBEvent)
    (hh : s.state = .halfOpen) (ho : e.outcome = false) :
    cbStep cfg s e = { s with
      state := CircuitState.opened, success_count := 0,
      failure_count := s.failure_count + 1, last_failure_time := some e.tout } := by
  unfold cbStep callStep
  rw [if_neg (by rw [hh]; simp), ho]
  show onFailure cfg s e.tout = _
  unfold onFailure
  rw [if_pos hh]

theorem cbStep_halfOpen_success_reach (cfg : CBConfig) (s : CBState) (e : CBEvent)
    (hh : s.state = .halfOpen) (ho : e.outcome = true)
    (hm : cfg.half_open_max_calls ≤ s.success_count + 1) :
    cbStep cfg s e = { s with
      state := CircuitState.closed, failure_count := 0, success_count := 0 } := by
  unfold cbStep callStep
  rw [if_neg (by rw [hh]; simp), ho]
  show onSuccess cfg s = _
  rw [onSuccess_of_halfOpen_reach cfg s hh hm]

theorem cbStep_halfOpen_success_below (cfg : CBConfig) (s : CBState) (e : CBEvent)
    (hh : s.state = .halfOpen) (ho : e.outcome = true)
    (hm : ¬ cfg.half_open_max_calls ≤ s.success_count + 1) :
    cbStep cfg s e = { s with success_count := s.success_count + 1 } := by
  unfold cbStep callStep
  rw [if_neg (by rw [hh]; simp), ho]
  show onSuccess cfg s = _
  rw [onSuccess_of_halfOpen_below cfg s hh hm]

/-- Any single `call` on a breaker state satisfying the reachability
invariant has exactly one of the `LegalCall` effects. -/
theorem cbStep_legalCall (cfg : CBConfig) (s : CBState) (e : CBEvent)
    (hinv : s.state = .opened → s.last_failure_time.isSome) :
    LegalCall cfg e s (cbStep cfg s e) := by
  unfold LegalCall
  by_cases hs : s.state = .opened
  · obtain ⟨tf, htf⟩ : ∃ tf, s.last_failure_time = some tf := by
      rcases hsome : s.last_failure_time with _ | tf
      · exact absurd (hinv hs) (by simp [hsome])
      · exact ⟨tf, rfl⟩
    by_cases hr : shouldAttemptReset cfg s e.tg
    · have hge : (cfg.recovery_timeout : ℤ) ≤ e.tg - tf := by
        simp only [shouldAttemptReset, htf, decide_eq_true_eq] at hr
        exact hr
      rcases ho : e.outcome with _ | _
      · refine Or.inr (Or.inr (Or.inr (Or.inr (Or.inl
          ⟨hs, ⟨tf, htf, hge⟩, Or.inr (Or.inr ⟨rfl, ?_⟩)⟩))))
        exact cbStep_open_admit_fail cfg s e hs hr ho
      · by_cases hm : cfg.half_open_max_calls ≤ 1
        · refine Or.inr (Or.inr (Or.inr (Or.inr (Or.inl
            ⟨hs, ⟨tf, htf, hge⟩, Or.inr (Or.inl ⟨rfl, hm, ?_⟩)⟩))))
          exact cbStep_open_admit_success_reach cfg s e hs hr ho hm
        · refine Or.inr (Or.inr (Or.inr (Or.inr (Or.inl
            ⟨hs, ⟨tf, htf, hge⟩, Or.inl ⟨rfl, hm, ?_⟩⟩))))
          exact cbStep_open_admit_success_below cfg s e hs hr ho hm
    · have hlt : e.tg - tf < (cfg.recovery_timeout : ℤ) := by
        simp only [shouldAttemptReset, htf, decide_eq_true_eq] at hr
        omega
      exact Or.inr (Or.inr (Or.inr (Or.inl
        ⟨hs, ⟨tf, htf, hlt⟩, cbStep_open_rejected cfg s e hs hr⟩)))
  · by_cases hc : s.state = .closed
    · rcases ho : e.outcome with _ | _
      · by_cases hth : cfg.failure_threshold ≤ s.failure_count + 1
        · exact Or.inr (Or.inr (Or.inl
            ⟨hc, rfl, hth, cbStep_closed_fail_opens cfg s e hc ho hth⟩))
        · exact Or.inr (Or.inl ⟨hc, rfl, hth, cbStep_closed_fail cfg s e hc ho hth⟩)
      · exact Or.inl ⟨hc, rfl, cbStep_closed_success cfg s e hc ho⟩
    · have hh : s.state = .halfOpen := by
        rcases h3 : s.state <;> simp_all
      rcases ho : e.outcome with _ | _
      · exact Or.inr (Or.inr (Or.inr (Or.inr (Or.inr (Or.inr (Or.inr
          ⟨hh, rfl, cbStep_halfOpen_fail cfg s e hh ho⟩))))))
      · by_cases hm : cfg.half_open_max_calls ≤ s.success_count + 1
        · exact Or.inr (Or.inr (Or.inr (Or.inr (Or.inr (Or.inl
            ⟨hh, rfl, hm, cbStep_halfOpen_success_reach cfg s e hh ho hm⟩)))))
        · exact Or.inr (Or.inr (Or.inr (Or.inr (Or.inr (Or.inr (Or.inl
            ⟨hh, rfl, hm, cbStep_halfOpen_success_below cfg s e hh ho hm⟩))))))

/-- C1.  For every sequence of `CircuitBreaker.call` invocations (guard
checks plus recorded successes and failures) on a fresh breaker, the next
call's effect is exactly one of the `LegalCall` cases, each of which fixes
the successor state completely as an explicit record of the current state
and the event.  Hence the `state` field changes only by the four legal
transitions with their guards evaluated on the actual states: CLOSED→OPEN
exactly when the incremented `failure_count` reaches `failure_threshold`,
OPEN→HALF_OPEN exactly when at least `recovery_timeout` has elapsed since
the recorded last failure (with `success_count` reset to 0; for an admitted
trial the pinned intermediate is
`{ s with state := halfOpen, success_count := 0 }`, and the same call then
records the trial outcome by that intermediate's own legal transition),
HALF_OPEN→CLOSED exactly when `success_count` reaches `half_open_max_calls`
(with both counters reset to 0), and HALF_OPEN→OPEN on any failure; in every
remaining case the `state` field is unchanged.  No other state transition
occurs: a breaker that opened below the threshold, recovered before the
timeout, or closed before `half_open_max_calls` successes would contradict
this theorem. -/
theorem circuit_breaker_legal_transitions (cfg : CBConfig) (evs : List CBEvent) (e : CBEvent) :
    LegalCall cfg e (runCB cfg evs) (runCB cfg (evs ++ [e])) := by
  rw [runCB_append]
  exact cbStep_legalCall cfg (runCB cfg evs) e (runCB_open_inv cfg evs)

/-- Sanity check that `LegalCall` itself excludes the transitions the claim
declares illegal: a breaker step CLOSED→HALF_OPEN (here on a failure) is not
a `LegalCall` effect for any event data. -/
theorem legalCall_rejects_closed_to_halfOpen :
    ¬ LegalCall ⟨5, 60, 3⟩ ⟨0, false, 0⟩
      ⟨CircuitState.closed, 0, 0, none⟩ ⟨CircuitState.halfOpen, 0, 0, none⟩ := by
  simp [LegalCall]

/-- Sanity check: recovering OPEN→HALF_OPEN after only 1 second of a
60-second `recovery_timeout` is not a `LegalCall` effect. -/
theorem legalCall_rejects_early_recovery :
    ¬ LegalCall ⟨5, 60, 3⟩ ⟨1, true, 1⟩
      ⟨CircuitState.opened, 5, 0, some 0⟩ ⟨CircuitState.halfOpen, 5, 0, some 0⟩ := by
  simp [LegalCall]

/-- Sanity check: opening CLOSED→OPEN with a final failure count of 1
against a threshold of 5 is not a `LegalCall` effect. -/
theorem legalCall_rejects_early_open :
    ¬ LegalCall ⟨5, 60, 3⟩ ⟨0, false, 0⟩
      ⟨CircuitState.closed, 0, 0, none⟩ ⟨CircuitState.opened, 1, 0, some 0⟩ := by
  simp [LegalCall]

/-- A run of consecutive failures strictly below the threshold leaves a
CLOSED breaker CLOSED and just accumulates the failure counter. -/
theorem closed_fail_run (cfg : CBConfig) (evs : List CBEvent) :
    ∀ s : CBState, s.state = .closed →
      (∀ e ∈ evs, e.outcome = false) →
      s.failure_count + evs.length < cfg.failure_threshold →
      (evs.foldl (cbStep cfg) s).state = .closed ∧
      (evs.foldl (cbStep cfg) s).failure_count = s.failure_count + evs.length := by
  induction evs with
  | nil => intro s hc _ _; simpa using hc
  | cons e rest ih =>
    intro s hc hall hlt
    have ho : e.outcome = false := hall e (by simp)
    have hth : ¬ cfg.failure_threshold ≤ s.failure_count + 1 := by
      simp only [List.length_cons] at hlt; omega
    have hstep := cbStep_closed_fail cfg s e hc ho hth
    simp only [List.foldl_cons, hstep]
    have h2 := ih { s with failure_count := s.failure_count + 1, last_failure_time := some e.tout }
      hc (fun x hx => hall x (by simp [hx]))
      (by simp only [List.length_cons] at hlt; simp only [CBState.mk.injEq]; omega)
    refine ⟨h2.1, ?_⟩
    rw [h2.2]
    simp only [List.length_cons]
    omega

theorem le_maxFailRunAux (evs : List CBEvent) :
    ∀ cur best : Nat, best ≤ maxFailRunAux evs cur best := by
  induction evs with
  | nil => intro cur best; simp [maxFailRunAux]
  | cons e rest ih =>
    intro cur best
    unfold maxFailRunAux
    by_cases ho : e.outcome
    · rw [if_pos ho]; exact ih 0 best
    · rw [if_neg ho]
      exact le_trans (le_max_left best (cur + 1)) (ih (cur + 1) (max best (cur + 1)))

/-- While every run of consecutive failures stays below the threshold, a
CLOSED breaker whose failure counter equals the current run length remains
CLOSED. -/
theorem maxFailRun_closed_aux (cfg : CBConfig) (evs : List CBEvent) :
    ∀ (s : CBState) (best : Nat), s.state = .closed →
      maxFailRunAux evs s.failure_count best < cfg.failure_threshold →
      (evs.foldl (cbStep cfg) s).state = .closed := by
  induction evs with
  | nil => intro s best hc _; simpa using hc
  | cons e rest ih =>
    intro s best hc hlt
    unfold maxFailRunAux at hlt
    by_cases ho : e.outcome
    · rw [if_pos ho] at hlt
      have hstep := cbStep_closed_success cfg s e hc ho
      simp only [List.foldl_cons, hstep]
      exact ih { s with failure_count := 0 } best hc hlt
    · rw [if_neg ho] at hlt
      have hof : e.outcome = false := by
        rcases hob : e.outcome with _ | _
        · rfl
        · exact absurd hob ho
      have hcur : s.failure_count + 1 ≤
          maxFailRunAux rest (s.failure_count + 1) (max best (s.failure_count + 1)) :=
        le_trans (le_max_right best _) (le_maxFailRunAux rest _ _)
      have hth : ¬ cfg.failure_threshold ≤ s.failure_count + 1 := by omega
      have hstep := cbStep_closed_fail cfg s e hc hof hth
      simp only [List.foldl_cons, hstep]
      exact ih
        { s with failure_count := s.failure_count + 1, last_failure_time := some e.tout }
        (max best (s.failure_count + 1)) hc hlt

/-- C2.  For a breaker with `failure_threshold = N` starting CLOSED with a
zero failure counter: (i) any run of fewer than N consecutive failures
leaves it CLOSED with `failure_count` equal to the run length; (ii) a run of
exactly N consecutive failures ends with the breaker OPEN and
`last_failure_time` equal to the recording instant of the Nth failure;
(iii) a success handled in CLOSED state resets `failure_count` to 0; and
(iv) any call sequence in which every run of consecutive failures is shorter
than N leaves the breaker CLOSED. -/
theorem circuit_breaker_opens_exactly_at_threshold (cfg : CBConfig) :
    (∀ evs : List CBEvent, (∀ e ∈ evs, e.outcome = false) →
        evs.length < cfg.failure_threshold →
        (runCB cfg evs).state = .closed ∧ (runCB cfg evs).failure_count = evs.length) ∧
    (∀ (evs : List CBEvent) (e : CBEvent), (∀ x ∈ evs ++ [e], x.outcome = false) →
        (evs ++ [e]).length = cfg.failure_threshold →
        (runCB cfg (evs ++ [e])).state = .opened ∧
        (runCB cfg (evs ++ [e])).last_failure_time = some e.tout) ∧
    (∀ (s : CBState) (e : CBEvent), s.state = .closed → e.outcome = true →
        (cbStep cfg s e).failure_count = 0) ∧
    (∀ evs : List CBEvent, maxFailRun evs < cfg.failure_threshold →
        (runCB cfg evs).state = .closed) := by
  refine ⟨?_, ?_, ?_, ?_⟩
  · intro evs hall hlen
    have h := closed_fail_run cfg evs cbInit rfl hall (by simpa [cbInit] using hlen)
    exact ⟨h.1, by simpa [cbInit] using h.2⟩
  · intro evs e hall hlen
    simp only [List.length_append, List.length_cons, List.length_nil] at hlen
    have h1 := closed_fail_run cfg evs cbInit rfl
      (fun x hx => hall x (by simp [hx])) (by simp [cbInit]; omega)
    have ho : e.outcome = false := hall e (by simp)
    have hth : cfg.failure_threshold ≤ (runCB cfg evs).failure_count + 1 := by
      have h2 : (runCB cfg evs).failure_count = evs.length := by
        simpa [runCB, cbInit] using h1.2
      omega
    rw [runCB_append, cbStep_closed_fail_opens cfg (runCB cfg evs) e h1.1 ho hth]
    exact ⟨rfl, rfl⟩
  · intro s e hc ho
    rw [cbStep_closed_success cfg s e hc ho]
  · intro evs h
    exact maxFailRun_closed_aux cfg evs cbInit 0 rfl h

/-! ### C3: an OPEN breaker rejects strictly before the recovery timeout -/

/-- C3.  For a breaker in OPEN state whose last failure was recorded at
instant `tf`: a guard call at instant `e.tg` with `e.tg - tf` strictly below
`recovery_timeout` is rejected (`CircuitOpenError`) with the breaker state —
`state`, `failure_count`, `success_count` and `last_failure_time` — entirely
unchanged and the wrapped operation never invoked; the first guard call with
`recovery_timeout ≤ e.tg - tf` moves the breaker to HALF_OPEN with
`success_count` reset to 0 and runs the operation as a trial, recording its
outcome from that HALF_OPEN state. -/
theorem open_breaker_rejects_until_recovery (cfg : CBConfig) (s : CBState) (e : CBEvent)
    (tf : ℤ) (hs : s.state = .opened) (hlf : s.last_failure_time = some tf) :
    (e.tg - tf < (cfg.recovery_timeout : ℤ) →
      callStep cfg s e = (CBResult.rejected, s)) ∧
    ((cfg.recovery_timeout : ℤ) ≤ e.tg - tf →
      callStep cfg s e =
        (if e.outcome then
          (CBResult.ranSuccess,
            onSuccess cfg { s with state := CircuitState.halfOpen, success_count := 0 })
         else
          (CBResult.ranFailure,
            onFailure cfg { s with state := CircuitState.halfOpen, success_count := 0 }
              e.tout))) := by
  constructor
  · intro hlt
    unfold callStep
    rw [if_pos hs, if_neg (by
      simp only [shouldAttemptReset, hlf, decide_eq_true_eq, not_le]
      exact hlt)]
  · intro hge
    unfold callStep
    rw [if_pos hs, if_pos (by
      simp only [shouldAttemptReset, hlf, decide_eq_true_eq]
      exact hge)]

/-- Witness for C2 at `failure_threshold = 2`. -/
theorem circuit_breaker_opens_exactly_at_threshold_witness :
    ((runCB ⟨2, 60, 3⟩ [⟨0, false, 0⟩]).state = CircuitState.closed ∧
      (runCB ⟨2, 60, 3⟩ [⟨0, false, 0⟩]).failure_count = 1) ∧
    ((runCB ⟨2, 60, 3⟩ [⟨0, false, 0⟩, ⟨1, false, 1⟩]).state = CircuitState.opened ∧
      (runCB ⟨2, 60, 3⟩ [⟨0, false, 0⟩, ⟨1, false, 1⟩]).last_failure_time = some 1) ∧
    (cbStep ⟨2, 60, 3⟩ ⟨CircuitState.closed, 1, 0, some 0⟩ ⟨2, true, 2⟩).failure_count = 0 ∧
    (runCB ⟨2, 60, 3⟩ [⟨0, false, 0⟩, ⟨1, true, 1⟩, ⟨2, false, 2⟩]).state =
      CircuitState.closed :=
  ⟨(circuit_breaker_opens_exactly_at_threshold ⟨2, 60, 3⟩).1 [⟨0, false, 0⟩]
      (by decide) (by decide),
   (circuit_breaker_opens_exactly_at_threshold ⟨2, 60, 3⟩).2.1 [⟨0, false, 0⟩] ⟨1, false, 1⟩
      (by decide) (by decide),
   (circuit_breaker_opens_exactly_at_threshold ⟨2, 60, 3⟩).2.2.1
      ⟨CircuitState.closed, 1, 0, some 0⟩ ⟨2, true, 2⟩ rfl rfl,
   (circuit_breaker_opens_exactly_at_threshold ⟨2, 60, 3⟩).2.2.2
      [⟨0, false, 0⟩, ⟨1, true, 1⟩, ⟨2, false, 2⟩] (by decide)⟩

/-- Witness for C3: an OPEN breaker (last failure at 0, recovery 60) rejects
at instant 10 and admits a HALF_OPEN trial at instant 60. -/
theorem open_breaker_rejects_until_recovery_witness :
    callStep ⟨5, 60, 3⟩ ⟨CircuitState.opened, 5, 0, some 0⟩ ⟨10, true, 10⟩ =
      (CBResult.rejected, ⟨CircuitState.opened, 5, 0, some 0⟩) ∧
    callStep ⟨5, 60, 3⟩ ⟨CircuitState.opened, 5, 0, some 0⟩ ⟨60, true, 60⟩ =
      (CBResult.ranSuccess, (⟨CircuitState.halfOpen, 5, 1, some 0⟩ : CBState)) := by
  constructor
  · exact (open_breaker_rejects_until_recovery ⟨5, 60, 3⟩
      ⟨CircuitState.opened, 5, 0, some 0⟩ ⟨10, true, 10⟩ 0 rfl rfl).1 (by decide)
  · have h := (open_breaker_rejects_until_recovery ⟨5, 60, 3⟩
      ⟨CircuitState.opened, 5, 0, some 0⟩ ⟨60, true, 60⟩ 0 rfl rfl).2 (by decide)
    rw [h]
    decide

/-! ### C6: retry and backoff bounds for the shared retry loop -/

theorem execLoopAux_attempts_le (prov : Nat → Except String String) (jit : Nat → ℚ) :
    ∀ (fuel att : Nat), (execLoopAux prov jit fuel att).attempts ≤ fuel := by
  intro fuel
  induction fuel with
  | zero => intro att; simp [execLoopAux]
  | succ n ih =>
    intro att
    unfold execLoopAux
    cases hp : prov att with
    | ok r => dsimp only; omega
    | error e =>
      dsimp only
      by_cases h2 : 0 < n
      · rw [if_pos h2]
        show (execLoopAux prov jit n (att + 1)).attempts + 1 ≤ n + 1
        have := ih (att + 1)
        omega
      · rw [if_neg h2]
        dsimp only
        omega

theorem execLoop_attempts_le (mr : Nat) (prov : Nat → Except String String)
    (jit : Nat → ℚ) (att : Nat) :
    (execLoop mr prov jit att).attempts ≤ mr - att :=
  execLoopAux_attempts_le prov jit (mr - att) att

theorem execLoopAux_backoff_le (prov : Nat → Except String String)
    (jit : Nat → ℚ) (hj : ∀ i, 0 ≤ jit i ∧ jit i < 1) :
    ∀ (fuel att : Nat),
      (execLoopAux prov jit fuel att).backoff ≤
        ∑ i ∈ Finset.Ico att (att + fuel), ((2 : ℚ) ^ i + 1) := by
  intro fuel
  induction fuel with
  | zero =>
    intro att
    simp [execLoopAux]
  | succ n ih =>
    intro att
    unfold execLoopAux
    cases hp : prov att with
    | ok r =>
      dsimp only
      exact Finset.sum_nonneg fun i _ => by positivity
    | error e =>
      dsimp only
      by_cases h2 : 0 < n
      · rw [if_pos h2]
        show (execLoopAux prov jit n (att + 1)).backoff + ((2 : ℚ) ^ att + jit att) ≤ _
        have hrec := ih (att + 1)
        have hb : att + (n + 1) = att + 1 + n := by omega
        have hsplit : ∑ i ∈ Finset.Ico att (att + (n + 1)), ((2 : ℚ) ^ i + 1) =
            ((2 : ℚ) ^ att + 1) + ∑ i ∈ Finset.Ico (att + 1) (att + 1 + n), ((2 : ℚ) ^ i + 1) := by
          rw [hb, Finset.sum_eq_sum_Ico_succ_bot (by omega)]
        rw [hsplit]
        have hja := (hj att).2
        linarith
      · rw [if_neg h2]
        dsimp only
        exact Finset.sum_nonneg fun i _ => by positivity

theorem execLoop_backoff_le0 (mr : Nat) (prov : Nat → Except String String)
    (jit : Nat → ℚ) (hj : ∀ i, 0 ≤ jit i ∧ jit i < 1) :
    (execLoop mr prov jit 0).backoff ≤ ∑ i ∈ Finset.Ico 0 mr, ((2 : ℚ) ^ i + 1) := by
  have h := execLoopAux_backoff_le prov jit hj mr 0
  simpa [execLoop] using h

theorem execLoop_attempts_le0 (mr : Nat) (prov : Nat → Except String String)
    (jit : Nat → ℚ) : (execLoop mr prov jit 0).attempts ≤ mr := by
  simpa using execLoop_attempts_le mr prov jit 0

theorem callDeepseekModel_attempts_le (p : RouterParams) (st : RouterState) (model : String)
    (prov : Nat → Except String String) (jit : Nat → ℚ) (t : ℤ) :
    (callDeepseekModel p st model prov jit t).2.2 ≤ p.max_retries := by
  have hatt := execLoop_attempts_le0 p.max_retries prov jit
  unfold callDeepseekModel
  split_ifs <;> first | exact Nat.zero_le _ | exact hatt

theorem callOpenaiModel_attempts_le (p : RouterParams) (st : RouterState)
    (prov : Nat → Except String String) (jit : Nat → ℚ) (t : ℤ) :
    (callOpenaiModel p st prov jit t).2.2 ≤ p.max_retries := by
  have hatt := execLoop_attempts_le0 p.max_retries prov jit
  unfold callOpenaiModel
  split_ifs <;> first | exact Nat.zero_le _ | exact hatt

/-- Within one `call`, each provider is attempted at most `max_retries`
times. -/
theorem callRouter_attempts_le (p : RouterParams) (st : RouterState) (ev : CallEvent) :
    (callRouter p st ev).2.2.dsAttempts ≤ p.max_retries ∧
    (callRouter p st ev).2.2.oaAttempts ≤ p.max_retries := by
  have hds := callDeepseekModel_attempts_le p (routerStateAt p st ev)
    (selectedModelOf p ev) ev.dsProv ev.dsJit ev.t
  have hoa1 := callOpenaiModel_attempts_le p
    ((callDeepseekModel p (routerStateAt p st ev) (selectedModelOf p ev)
      ev.dsProv ev.dsJit ev.t).2.1) ev.oaProv ev.oaJit ev.t
  have hoa2 := callOpenaiModel_attempts_le p (routerStateAt p st ev) ev.oaProv ev.oaJit ev.t
  unfold callRouter
  dsimp only
  split
  · split
    · exact ⟨hds, Nat.zero_le _⟩
    · split
      · split
        · exact ⟨hds, hoa1⟩
        · exact ⟨hds, hoa1⟩
      · exact ⟨hds, Nat.zero_le _⟩
  · split
    · split
      · exact ⟨Nat.zero_le _, hoa2⟩
      · exact ⟨Nat.zero_le _, hoa2⟩
    · exact ⟨Nat.zero_le _, Nat.zero_le _⟩

/-- C6.  Per provider and per `call`: at most `max_retries` network attempts
are made against each provider; and for the retry loops (shared by
`_call_deepseek` and `_call_openai`), with every jitter sample in [0,1),
the cumulated backoff `sum of (2 ** attempt + jitter)` is bounded by
`sum(2^i for i in 0..max_retries) + 1 * max_retries`. -/
theorem retry_attempts_and_backoff_bounded :
    (∀ (p : RouterParams) (st : RouterState) (ev : CallEvent),
      (callRouter p st ev).2.2.dsAttempts ≤ p.max_retries ∧
      (callRouter p st ev).2.2.oaAttempts ≤ p.max_retries) ∧
    (∀ (mr : Nat) (prov : Nat → Except String String) (jit : Nat → ℚ),
      (∀ i, 0 ≤ jit i ∧ jit i < 1) →
      (execLoop mr prov jit 0).attempts ≤ mr ∧
      (execLoop mr prov jit 0).backoff ≤
        (∑ i ∈ Finset.range (mr + 1), (2 : ℚ) ^ i) + mr) := by
  constructor
  · intro p st ev
    exact callRouter_attempts_le p st ev
  · intro mr prov jit hj
    refine ⟨execLoop_attempts_le0 mr prov jit, ?_⟩
    have h := execLoop_backoff_le0 mr prov jit hj
    have hle : ∑ i ∈ Finset.Ico 0 mr, ((2 : ℚ) ^ i + 1) ≤
        (∑ i ∈ Finset.range (mr + 1), (2 : ℚ) ^ i) + mr := by
      rw [Finset.sum_add_distrib]
      have h1 : ∑ i ∈ Finset.Ico 0 mr, (2 : ℚ) ^ i ≤
          ∑ i ∈ Finset.range (mr + 1), (2 : ℚ) ^ i := by
        rw [Finset.range_eq_Ico]
        exact Finset.sum_le_sum_of_subset_of_nonneg
          (Finset.Ico_subset_Ico (le_refl 0) (by omega))
          (fun i _ _ => by positivity)
      have h2 : ∑ _i ∈ Finset.Ico 0 mr, (1 : ℚ) = mr := by simp
      linarith
    exact le_trans h hle

set_option maxRecDepth 40000 in
/-- Witness for C6 with `max_retries = 3`, an always-failing provider and
zero jitter. -/
theorem retry_attempts_and_backoff_bounded_witness :
    ((callRouter pNoAuto routerInit evBothFail).2.2.dsAttempts ≤ pNoAuto.max_retries ∧
      (callRouter pNoAuto routerInit evBothFail).2.2.oaAttempts ≤ pNoAuto.max_retries) ∧
    ((execLoop 3 (fun _ => Except.error "e") zeroJit 0).attempts ≤ 3 ∧
      (execLoop 3 (fun _ => Except.error "e") zeroJit 0).backoff ≤
        (∑ i ∈ Finset.range (3 + 1), (2 : ℚ) ^ i) + ((3 : Nat) : ℚ)) :=
  ⟨retry_attempts_and_backoff_bounded.1 pNoAuto routerInit evBothFail,
   retry_attempts_and_backoff_bounded.2 3 (fun _ => Except.error "e") zeroJit
     (fun _ => ⟨le_refl 0, zero_lt_one⟩)⟩

/-! ### C7 / C8: the complexity analyzer -/

/-- C7.  `ComplexityAnalyzer.analyze` is total by construction (it is a pure
Lean function).  Empty input yields score 0 and level "low"; and for every
input the classification follows the thresholds: score ≥ 45 gives level
"high" with the capable model (`deepseek-reasoner`) and timeout 120;
otherwise score ≥ 25 gives level "medium" with timeout 90 and the capable
model exactly when the token estimate exceeds 4000 or the score exceeds 35
(else the cheap model `deepseek-chat`); otherwise level "low" with the cheap
model and timeout 60. -/
theorem complexity_analyzer_classification :
    ((analyze (Sum.inl "")).score = 0 ∧ (analyze (Sum.inl "")).level = "low") ∧
    ∀ m : Sum String (List Msg),
      (45 ≤ (analyze m).score →
        (analyze m).level = "high" ∧
        (analyze m).recommended_model = "deepseek-reasoner" ∧
        (analyze m).recommended_timeout = 120) ∧
      (25 ≤ (analyze m).score → (analyze m).score < 45 →
        (analyze m).level = "medium" ∧ (analyze m).recommended_timeout = 90 ∧
        (analyze m).recommended_model =
          (if 4000 < (analyze m).estimated_tokens ∨ 35 < (analyze m).score then
            "deepseek-reasoner" else "deepseek-chat")) ∧
      ((analyze m).score < 25 →
        (analyze m).level = "low" ∧
        (analyze m).recommended_model = "deepseek-chat" ∧
        (analyze m).recommended_timeout = 60) := by
  constructor
  · exact ⟨by decide, by decide⟩
  · intro m
    have hsc : (analyze m).score = min (rawScore (flattenInput m)) 100 := rfl
    have hlv : (analyze m).level =
        (classify (rawScore (flattenInput m))
          (estimatedTokens (lowerStr (flattenInput m)) (flattenInput m).length)).1 := rfl
    have hmd : (analyze m).recommended_model =
        (classify (rawScore (flattenInput m))
          (estimatedTokens (lowerStr (flattenInput m)) (flattenInput m).length)).2.1 := rfl
    have hto : (analyze m).recommended_timeout =
        (classify (rawScore (flattenInput m))
          (estimatedTokens (lowerStr (flattenInput m)) (flattenInput m).length)).2.2 := rfl
    have het : (analyze m).estimated_tokens =
        estimatedTokens (lowerStr (flattenInput m)) (flattenInput m).length := rfl
    set S := rawScore (flattenInput m) with hS
    set E := estimatedTokens (lowerStr (flattenInput m)) (flattenInput m).length with hE
    refine ⟨?_, ?_, ?_⟩
    · intro h45
      rw [hsc] at h45
      have h45' : 45 ≤ S := by omega
      rw [hlv, hmd, hto, classify, if_pos h45']
      exact ⟨rfl, rfl, rfl⟩
    · intro h25 h45
      rw [hsc] at h25 h45
      have h45' : ¬ 45 ≤ S := by omega
      have h25' : 25 ≤ S := by omega
      have hmin : min S 100 = S := by omega
      rw [hlv, hmd, hto, het, hsc, hmin, classify, if_neg h45', if_pos h25']
      refine ⟨rfl, rfl, ?_⟩
      by_cases hcond : 4000 < E ∨ 35 < S
      · rw [if_pos hcond, if_pos ?_]
        simp only [Bool.or_eq_true, decide_eq_true_eq]
        exact hcond
      · rw [if_neg hcond, if_neg ?_]
        simp only [Bool.or_eq_true, decide_eq_true_eq]
        exact hcond
    · intro h25
      rw [hsc] at h25
      have h45' : ¬ 45 ≤ S := by omega
      have h25' : ¬ 25 ≤ S := by omega
      rw [hlv, hmd, hto, classify, if_neg h45', if_neg h25']
      exact ⟨rfl, rfl, rfl⟩

/-- Witness for C7 on concrete prompts of each class. -/
theorem complexity_analyzer_classification_witness :
    ((analyze (Sum.inl "sistema completo docker kubernetes pipeline workflow")).level = "high" ∧
      (analyze (Sum.inl "sistema completo docker kubernetes pipeline workflow")).recommended_model
        = "deepseek-reasoner" ∧
      (analyze (Sum.inl "sistema completo docker kubernetes pipeline workflow")).recommended_timeout
        = 120) ∧
    ((analyze (Sum.inl "workflow docker kubernetes pipeline")).level = "medium" ∧
      (analyze (Sum.inl "workflow docker kubernetes pipeline")).recommended_timeout = 90 ∧
      (analyze (Sum.inl "workflow docker kubernetes pipeline")).recommended_model =
        (if 4000 < (analyze (Sum.inl "workflow docker kubernetes pipeline")).estimated_tokens
            ∨ 35 < (analyze (Sum.inl "workflow docker kubernetes pipeline")).score then
          "deepseek-reasoner" else "deepseek-chat")) ∧
    ((analyze (Sum.inl "hi")).level = "low" ∧
      (analyze (Sum.inl "hi")).recommended_model = "deepseek-chat" ∧
      (analyze (Sum.inl "hi")).recommended_timeout = 60) :=
  ⟨(complexity_analyzer_classification.2
      (Sum.inl "sistema completo docker kubernetes pipeline workflow")).1 (by decide),
   (complexity_analyzer_classification.2
      (Sum.inl "workflow docker kubernetes pipeline")).2.1 (by decide) (by decide),
   (complexity_analyzer_classification.2 (Sum.inl "hi")).2.2 (by decide)⟩

/-- C8.  `analyze` is deterministic (it is a pure function, so
`analyze X = analyze X` definitionally); the returned score is non-decreasing
in the number of high-complexity keywords found, holding the other scoring
factors (length bucket, medium-keyword count, pattern count) fixed; and the
returned score always lies in [0, 100] (it is a `Nat`, hence ≥ 0). -/
theorem complexity_analyzer_monotone_bounded :
    (∀ m : Sum String (List Msg), analyze m = analyze m) ∧
    (∀ X Y : String,
      lengthScore X.length = lengthScore Y.length →
      (mediumKeywordsFound (lowerStr X)).length = (mediumKeywordsFound (lowerStr Y)).length →
      patternCount (lowerStr X) = patternCount (lowerStr Y) →
      (highKeywordsFound (lowerStr X)).length ≤ (highKeywordsFound (lowerStr Y)).length →
      (analyzeText X).score ≤ (analyzeText Y).score) ∧
    (∀ m : Sum String (List Msg), (analyze m).score ≤ 100) := by
  refine ⟨fun m => rfl, ?_, fun m => ?_⟩
  · intro X Y h1 h2 h3 h4
    have hX : (analyzeText X).score = min (rawScore X) 100 := rfl
    have hY : (analyzeText Y).score = min (rawScore Y) 100 := rfl
    rw [hX, hY]
    unfold rawScore
    omega
  · show min (rawScore (flattenInput m)) 100 ≤ 100
    omega

/-- Witness for C8: adding the high-complexity keyword "docker" (other
factors unchanged) does not decrease the score. -/
theorem complexity_analyzer_monotone_bounded_witness :
    (analyzeText "workflow").score ≤ (analyzeText "workflow docker").score :=
  complexity_analyzer_monotone_bounded.2.1 "workflow" "workflow docker"
    (by decide) (by decide) (by decide) (by decide)

/-! ### C10: `openai_calls` and `total_fallbacks` move in lockstep -/

theorem analysisStats_openai (p : RouterParams) (s : Stats) (ev : CallEvent) :
    (analysisStats p s ev).openai_calls = s.openai_calls ∧
    (analysisStats p s ev).total_fallbacks = s.total_fallbacks := by
  unfold analysisStats
  dsimp only
  split_ifs <;> exact ⟨rfl, rfl⟩

theorem recordError_openai (s : Stats) (msg : String) :
    (recordError s msg).openai_calls = s.openai_calls ∧
    (recordError s msg).total_fallbacks = s.total_fallbacks := ⟨rfl, rfl⟩

/-- `_call_deepseek` touches no OpenAI-related counter. -/
theorem callDeepseekModel_stats_openai (p : RouterParams) (st : RouterState) (model : String)
    (prov : Nat → Except String String) (jit : Nat → ℚ) (t : ℤ) :
    ((callDeepseekModel p st model prov jit t).2.1).stats.openai_calls
        = st.stats.openai_calls ∧
    ((callDeepseekModel p st model prov jit t).2.1).stats.total_fallbacks
        = st.stats.total_fallbacks := by
  unfold callDeepseekModel dsExecStats
  dsimp only
  constructor <;> (split_ifs <;> (repeat' split) <;> rfl)

/-- `_call_openai` bumps `openai_calls` and `total_fallbacks` together,
exactly once per invocation, before anything else happens. -/
theorem callOpenaiModel_stats_openai (p : RouterParams) (st : RouterState)
    (prov : Nat → Except String String) (jit : Nat → ℚ) (t : ℤ) :
    ((callOpenaiModel p st prov jit t).2.1).stats.openai_calls
        = st.stats.openai_calls + 1 ∧
    ((callOpenaiModel p st prov jit t).2.1).stats.total_fallbacks
        = st.stats.total_fallbacks + 1 := by
  unfold callOpenaiModel oaExecStats
  dsimp only
  constructor <;> (split_ifs <;> (repeat' split) <;> rfl)

/-- One `call` preserves equality of the two counters. -/
theorem callRouter_fallback_invariant (p : RouterParams) (st : RouterState) (ev : CallEvent)
    (h : st.stats.openai_calls = st.stats.total_fallbacks) :
    (routerStep p st ev).stats.openai_calls = (routerStep p st ev).stats.total_fallbacks := by
  have hA := analysisStats_openai p st.stats ev
  have hst1 : (routerStateAt p st ev).stats = analysisStats p st.stats ev := rfl
  have hD := callDeepseekModel_stats_openai p (routerStateAt p st ev)
    (selectedModelOf p ev) ev.dsProv ev.dsJit ev.t
  have hO1 := callOpenaiModel_stats_openai p
    ((callDeepseekModel p (routerStateAt p st ev) (selectedModelOf p ev)
      ev.dsProv ev.dsJit ev.t).2.1) ev.oaProv ev.oaJit ev.t
  have hO2 := callOpenaiModel_stats_openai p (routerStateAt p st ev)
    ev.oaProv ev.oaJit ev.t
  unfold routerStep callRouter
  dsimp only
  split
  · split
    · rw [hD.1, hD.2, hst1, hA.1, hA.2]; exact h
    · split
      · split
        · rw [hO1.1, hO1.2, hD.1, hD.2, hst1, hA.1, hA.2, h]
        · show (recordError _ _).openai_calls = (recordError _ _).total_fallbacks
          rw [(recordError_openai _ _).1, (recordError_openai _ _).2,
            hO1.1, hO1.2, hD.1, hD.2, hst1, hA.1, hA.2, h]
      · rw [hD.1, hD.2, hst1, hA.1, hA.2]; exact h
  · split
    · split
      · rw [hO2.1, hO2.2, hst1, hA.1, hA.2, h]
      · show (recordError _ _).openai_calls = (recordError _ _).total_fallbacks
        rw [(recordError_openai _ _).1, (recordError_openai _ _).2,
          hO2.1, hO2.2, hst1, hA.1, hA.2, h]
    · rw [hst1, hA.1, hA.2]; exact h

/-- C10.  Invariant kept by every operation of the router: after any
sequence of `call`s on a freshly constructed router, the statistics counters
`openai_calls` and `total_fallbacks` are equal — `_call_openai` is the only
code that touches either, and it increments both together on entry, so
`total_fallbacks` counts all secondary-provider uses, including a direct use
of OpenAI when DeepSeek's health check reports it unavailable. -/
theorem openai_calls_eq_total_fallbacks :
    (∀ (p : RouterParams) (evs : List CallEvent),
      (getStats (runRouter p evs)).openai_calls = (getStats (runRouter p evs)).total_fallbacks) ∧
    (∀ (p : RouterParams) (st : RouterState) (prov : Nat → Except String String)
        (jit : Nat → ℚ) (t : ℤ),
      ((callOpenaiModel p st prov jit t).2.1).stats.openai_calls
          = st.stats.openai_calls + 1 ∧
      ((callOpenaiModel p st prov jit t).2.1).stats.total_fallbacks
          = st.stats.total_fallbacks + 1) := by
  constructor
  · intro p evs
    show (runRouter p evs).stats.openai_calls = (runRouter p evs).stats.total_fallbacks
    suffices h : ∀ (l : List CallEvent) (st : RouterState),
        st.stats.openai_calls = st.stats.total_fallbacks →
        (l.foldl (routerStep p) st).stats.openai_calls
          = (l.foldl (routerStep p) st).stats.total_fallbacks by
      exact h evs routerInit rfl
    intro l
    induction l with
    | nil => intro st h; exact h
    | cons e rest ih =>
      intro st h
      exact ih _ (callRouter_fallback_invariant p st e h)
  · intro p st prov jit t
    exact callOpenaiModel_stats_openai p st prov jit t

/-! ### C5: fallback is attempted at most once, not always exactly once -/

set_option maxRecDepth 40000 in
/-- Counterexample to C5 as stated ("the secondary provider is attempted
exactly once in that call ... never zero times"): starting from a fresh
router (auto-detection off), three calls in which both providers fail every
attempt drive the OpenAI breaker OPEN (its threshold is 3); on the fourth
call the primary fails after its full 3 attempts — so "the primary
ultimately fails" — yet the secondary is attempted zero times: the call
raises immediately because OpenAI's health check fails. -/
theorem fallback_never_zero_counterexample :
    (callRouter pNoAuto (runRouter pNoAuto [evFailBoth 0, evFailBoth 100, evFailBoth 200])
        (evFailBoth 300)).2.2.dsAttempts = 3 ∧
    (callRouter pNoAuto (runRouter pNoAuto [evFailBoth 0, evFailBoth 100, evFailBoth 200])
        (evFailBoth 300)).1 =
      Except.error "DeepSeek falhou e OpenAI indisponível: DeepSeek failed: e" ∧
    (callRouter pNoAuto (runRouter pNoAuto [evFailBoth 0, evFailBoth 100, evFailBoth 200])
        (evFailBoth 300)).2.2.oaPasses = 0 := by
  refine ⟨by decide, by decide, by decide⟩

/-- C5 amended.  When the primary provider is selected (its health check
passed) and its guarded execution ultimately fails, `_call_deepseek` is
entered exactly once and never re-entered after the fallback decision, and
`_call_openai` is entered exactly once if OpenAI's health check passed at
the start of the call and zero times otherwise (in which case the router
raises immediately); in particular the secondary is attempted at most once
per call. -/
theorem fallback_secondary_at_most_once (p : RouterParams) (st : RouterState) (ev : CallEvent)
    (hds : dsHealthyFlag p st ev = true)
    (hfail : ∃ e, (callDeepseekModel p (routerStateAt p st ev) (selectedModelOf p ev)
        ev.dsProv ev.dsJit ev.t).1 = Except.error e) :
    (callRouter p st ev).2.2.dsPasses = 1 ∧
    (callRouter p st ev).2.2.oaPasses = (if oaHealthyFlag p st ev then 1 else 0) ∧
    (callRouter p st ev).2.2.oaPasses ≤ 1 := by
  obtain ⟨e1, he1⟩ := hfail
  unfold callRouter
  dsimp only
  rw [if_pos hds, he1]
  dsimp only
  by_cases hoa : oaHealthyFlag p st ev
  · rw [if_pos hoa, if_pos hoa]
    cases ho : (callOpenaiModel p
        (callDeepseekModel p (routerStateAt p st ev) (selectedModelOf p ev)
          ev.dsProv ev.dsJit ev.t).2.1 ev.oaProv ev.oaJit ev.t).1 with
    | ok res => exact ⟨rfl, rfl, le_refl 1⟩
    | error e2 => exact ⟨rfl, rfl, le_refl 1⟩
  · rw [if_neg hoa, if_neg hoa]
    exact ⟨rfl, rfl, Nat.zero_le 1⟩

set_option maxRecDepth 40000 in
/-- Witness for the amended C5: fresh router, primary failing every attempt,
secondary healthy — the secondary is entered exactly once. -/
theorem fallback_secondary_at_most_once_witness :
    (callRouter pNoAuto routerInit evBothFail).2.2.dsPasses = 1 ∧
    (callRouter pNoAuto routerInit evBothFail).2.2.oaPasses = 1 ∧
    (callRouter pNoAuto routerInit evBothFail).2.2.oaPasses ≤ 1 :=
  have h := fallback_secondary_at_most_once pNoAuto routerInit evBothFail (by decide)
    ⟨"DeepSeek failed: boom-ds", by decide⟩
  ⟨h.1, h.2.1.trans (by decide), h.2.2⟩

/-! ### C4: rate-limit errors are retried like any other error -/

/-- When every attempt fails, the retry loop performs exactly `fuel`
attempts and ends in an error. -/
theorem execLoopAux_all_fail (prov : Nat → Except String String) (jit : Nat → ℚ)
    (hf : ∀ i, ∃ e, prov i = Except.error e) :
    ∀ fuel att, (execLoopAux prov jit fuel att).attempts = fuel ∧
      ∃ e, (execLoopAux prov jit fuel att).result = Except.error e := by
  intro fuel
  induction fuel with
  | zero => intro att; exact ⟨rfl, ⟨"None", rfl⟩⟩
  | succ n ih =>
    intro att
    obtain ⟨e, he⟩ := hf att
    unfold execLoopAux
    rw [he]
    dsimp only
    by_cases h2 : 0 < n
    · rw [if_pos h2]
      have hrec := ih (att + 1)
      constructor
      · show (execLoopAux prov jit n (att + 1)).attempts + 1 = n + 1
        omega
      · obtain ⟨e', he'⟩ := hrec.2
        exact ⟨e', he'⟩
    · rw [if_neg h2]
      constructor
      · show (1 : Nat) = n + 1
        omega
      · exact ⟨e, rfl⟩

/-- With a CLOSED breaker (or circuit breaking disabled) and a provider that
fails every attempt — for example with 429 / rate-limit errors —
`_call_deepseek` performs exactly `max_retries` attempts before raising. -/
theorem callDeepseekModel_closed_all_fail (p : RouterParams) (st : RouterState)
    (model : String) (prov : Nat → Except String String) (jit : Nat → ℚ) (t : ℤ)
    (hb : st.dsBreaker.state = CircuitState.closed)
    (hf : ∀ i, ∃ e, prov i = Except.error e) :
    (callDeepseekModel p st model prov jit t).2.2 = p.max_retries ∧
    ∃ e, (callDeepseekModel p st model prov jit t).1 = Except.error e := by
  have hfl := execLoopAux_all_fail prov jit hf p.max_retries 0
  have hatt : (execLoop p.max_retries prov jit 0).attempts = p.max_retries := hfl.1
  obtain ⟨e, he⟩ := hfl.2
  have hres : (execLoop p.max_retries prov jit 0).result = Except.error e := he
  unfold callDeepseekModel
  by_cases hcb : p.enable_circuit_breaker
  · rw [if_pos hcb, if_neg (by rw [hb]; simp)]
    dsimp only
    refine ⟨hatt, ⟨"DeepSeek failed: " ++ e.take 100, ?_⟩⟩
    show (execLoop p.max_retries prov jit 0).result.mapError
      (fun e => "DeepSeek failed: " ++ e.take 100) = _
    rw [hres]
    rfl
  · rw [if_neg hcb]
    dsimp only
    refine ⟨hatt, ⟨"DeepSeek failed: " ++ e.take 100, ?_⟩⟩
    show (execLoop p.max_retries prov jit 0).result.mapError
      (fun e => "DeepSeek failed: " ++ e.take 100) = _
    rw [hres]
    rfl

set_option maxRecDepth 40000 in
/-- Counterexample to C4 as stated ("the primary is invoked exactly once" on
a rate-limit error): a fresh router whose primary raises a 429 rate-limit
error on every attempt invokes the primary 3 times (`max_retries`), not
once — the source's retry loop has no rate-limit classification and retries
429 errors with backoff like any other error. -/
theorem rate_limit_fast_fail_counterexample :
    (callRouter pNoAuto routerInit ev429).2.2.dsAttempts = 3 ∧
    ¬ (callRouter pNoAuto routerInit ev429).2.2.dsAttempts = 1 ∧
    (callRouter pNoAuto routerInit ev429).2.2.oaPasses = 1 ∧
    (callRouter pNoAuto routerInit ev429).2.1.stats.total_fallbacks = 1 := by
  refine ⟨by decide, by decide, by decide, by decide⟩

/-- C4 amended.  A rate-limit (429) failure receives no special treatment:
when the primary is selected, its breaker is CLOSED, and every attempt
fails (in particular with rate-limit errors), the primary is invoked exactly
`max_retries` times; then, if the secondary's health check passed,
`_call_openai` is invoked exactly once and `total_fallbacks` increments
by 1. -/
theorem rate_limit_retried_like_any_error (p : RouterParams) (st : RouterState)
    (ev : CallEvent)
    (hds : dsHealthyFlag p st ev = true)
    (hb : (routerStateAt p st ev).dsBreaker.state = CircuitState.closed)
    (hf : ∀ i, ∃ e, ev.dsProv i = Except.error e) :
    (callRouter p st ev).2.2.dsAttempts = p.max_retries ∧
    (callRouter p st ev).2.2.dsPasses = 1 ∧
    (oaHealthyFlag p st ev = true →
      (callRouter p st ev).2.2.oaPasses = 1 ∧
      (callRouter p st ev).2.1.stats.total_fallbacks = st.stats.total_fallbacks + 1) := by
  obtain ⟨hatts, e1, he1⟩ := callDeepseekModel_closed_all_fail p (routerStateAt p st ev)
    (selectedModelOf p ev) ev.dsProv ev.dsJit ev.t hb hf
  have hD := callDeepseekModel_stats_openai p (routerStateAt p st ev)
    (selectedModelOf p ev) ev.dsProv ev.dsJit ev.t
  have hO1 := callOpenaiModel_stats_openai p
    ((callDeepseekModel p (routerStateAt p st ev) (selectedModelOf p ev)
      ev.dsProv ev.dsJit ev.t).2.1) ev.oaProv ev.oaJit ev.t
  have hA := analysisStats_openai p st.stats ev
  have hst1 : (routerStateAt p st ev).stats = analysisStats p st.stats ev := rfl
  unfold callRouter
  dsimp only
  rw [if_pos hds, he1]
  dsimp only
  by_cases hoa : oaHealthyFlag p st ev
  · rw [if_pos hoa]
    cases ho : (callOpenaiModel p
        (callDeepseekModel p (routerStateAt p st ev) (selectedModelOf p ev)
          ev.dsProv ev.dsJit ev.t).2.1 ev.oaProv ev.oaJit ev.t).1 with
    | ok res =>
      refine ⟨hatts, rfl, fun _ => ⟨rfl, ?_⟩⟩
      rw [hO1.2, hD.2, hst1, hA.2]
    | error e2 =>
      refine ⟨hatts, rfl, fun _ => ⟨rfl, ?_⟩⟩
      show (recordError _ _).total_fallbacks = _
      rw [(recordError_openai _ _).2, hO1.2, hD.2, hst1, hA.2]
  · rw [if_neg hoa]
    exact ⟨hatts, rfl, fun hcon => absurd hcon hoa⟩

set_option maxRecDepth 40000 in
/-- Witness for the amended C4 at the 429-raising provider. -/
theorem rate_limit_retried_like_any_error_witness :
    (callRouter pNoAuto routerInit ev429).2.2.dsAttempts = pNoAuto.max_retries ∧
    (callRouter pNoAuto routerInit ev429).2.2.dsPasses = 1 ∧
    (callRouter pNoAuto routerInit ev429).2.2.oaPasses = 1 ∧
    (callRouter pNoAuto routerInit ev429).2.1.stats.total_fallbacks =
      routerInit.stats.total_fallbacks + 1 :=
  have h := rate_limit_retried_like_any_error pNoAuto routerInit ev429 (by decide) (by decide)
    (fun i => ⟨"Error code: 429 - Rate limit reached", rfl⟩)
  ⟨h.1, h.2.1, (h.2.2 (by decide)).1, (h.2.2 (by decide)).2⟩

/-! ### C9: the per-provider `failures` counters are never incremented -/

set_option maxRecDepth 40000 in
/-- C9 evaluated at the failing input: on a fresh router whose providers
both fail every attempt (3 attempts each), `call` raises the aggregated
error containing both underlying messages, yet `get_stats` still reports
`failures = 0` for both providers — the `deepseek_failures` and
`openai_failures` counters declared in the stats dictionary (lines 337, 342)
are never incremented anywhere in the source, so these generic failures are
counted by no counter. -/
theorem failures_counters_never_incremented :
    (callRouter pNoAuto routerInit evBothFail).1 =
      Except.error
        "Ambas APIs falharam. DeepSeek: DeepSeek failed: boom-ds, OpenAI: OpenAI failed: boom-oa" ∧
    (callRouter pNoAuto routerInit evBothFail).2.2.dsAttempts = 3 ∧
    (callRouter pNoAuto routerInit evBothFail).2.2.oaAttempts = 3 ∧
    (getStats (callRouter pNoAuto routerInit evBothFail).2.1).deepseek_failures = 0 ∧
    (getStats (callRouter pNoAuto routerInit evBothFail).2.1).openai_failures = 0 := by
  refine ⟨by decide, by decide, by decide, by decide, by decide⟩

end LLMRouterV3
